import Mathlib

/-!
# Verification of the varfish-cli data-model and command layer

Shallow embedding of the serialization layer (`varfish_cli/api/models.py`),
the two small-variant query commands (`small_var_query_status.py`,
`small_var_query_fetch_results.py`), and the `varannosetentry-list` header
selection (`varannosetentry_list.py`), together with proofs about them.

Machine integers are modelled as `Nat`/`Int`; Python `None` as `Option.none`;
Python strings as Lean `String` (lists of characters); Python `datetime`
values as records of calendar fields plus an optional UTC offset; Python
`uuid.UUID` values as natural numbers below `2 ^ 128`.
-/

namespace VarfishCli

/-! ## Fixed-width decimal and hexadecimal digit strings

Python renders the numeric fields of `datetime.isoformat()` with fixed-width
zero-padded decimal (`%04d`, `%02d`, `%06d`) and renders UUIDs with
fixed-width zero-padded lowercase hex (`%032x`).  We model both with a
generic fixed-width base-`b` printer and reader over digit tables. -/

/-- Decimal digit to character (the digits used by Python `%d` formatting). -/
def decChar (d : Nat) : Char :=
  match d with
  | 0 => '0' | 1 => '1' | 2 => '2' | 3 => '3' | 4 => '4'
  | 5 => '5' | 6 => '6' | 7 => '7' | 8 => '8' | 9 => '9'
  | _ => '*'

/-- Character to decimal digit value; `none` on non-digits. -/
def decVal (c : Char) : Option Nat :=
  if c = '0' then some 0 else if c = '1' then some 1
  else if c = '2' then some 2 else if c = '3' then some 3
  else if c = '4' then some 4 else if c = '5' then some 5
  else if c = '6' then some 6 else if c = '7' then some 7
  else if c = '8' then some 8 else if c = '9' then some 9
  else none

/-- Lowercase hexadecimal digit to character (as produced by Python `%x`). -/
def hexChar (d : Nat) : Char :=
  match d with
  | 0 => '0' | 1 => '1' | 2 => '2' | 3 => '3' | 4 => '4'
  | 5 => '5' | 6 => '6' | 7 => '7' | 8 => '8' | 9 => '9'
  | 10 => 'a' | 11 => 'b' | 12 => 'c' | 13 => 'd' | 14 => 'e' | 15 => 'f'
  | _ => '*'

/-- Character to hexadecimal digit value, accepting both cases like
Python `int(s, 16)`; `none` on non-hex characters. -/
def hexVal (c : Char) : Option Nat :=
  if c = '0' then some 0 else if c = '1' then some 1
  else if c = '2' then some 2 else if c = '3' then some 3
  else if c = '4' then some 4 else if c = '5' then some 5
  else if c = '6' then some 6 else if c = '7' then some 7
  else if c = '8' then some 8 else if c = '9' then some 9
  else if c = 'a' then some 10 else if c = 'b' then some 11
  else if c = 'c' then some 12 else if c = 'd' then some 13
  else if c = 'e' then some 14 else if c = 'f' then some 15
  else if c = 'A' then some 10 else if c = 'B' then some 11
  else if c = 'C' then some 12 else if c = 'D' then some 13
  else if c = 'E' then some 14 else if c = 'F' then some 15
  else none

/-- Fixed-width base-`b` big-endian digit string of `n` (zero padded),
using digit table `dc`. -/
def natBaseBE (b : Nat) (dc : Nat → Char) : Nat → Nat → List Char
  | 0, _ => []
  | w + 1, n => dc (n / b ^ w) :: natBaseBE b dc w (n % b ^ w)

/-- Read exactly `w` base-`b` digits from the front of `cs`, returning the
accumulated value (on top of `acc`) and the remaining characters. -/
def readBase (b : Nat) (dv : Char → Option Nat) : Nat → Nat → List Char → Option (Nat × List Char)
  | 0, acc, cs => some (acc, cs)
  | _ + 1, _, [] => none
  | w + 1, acc, c :: cs =>
    match dv c with
    | some d => readBase b dv w (acc * b + d) cs
    | none => none

/-- The sixteen lowercase hexadecimal digit characters. -/
def lowerHexDigits : List Char :=
  ['0', '1', '2', '3', '4', '5', '6', '7'] ++ ['8', '9', 'a', 'b', 'c', 'd', 'e', 'f']

/-- Whether `c` is a lowercase hexadecimal digit. -/
def isLowerHex (c : Char) : Bool := decide (c ∈ lowerHexDigits)

/-- Big-endian value of a digit string under digit table `dv` in base `b`. -/
def valBE (b : Nat) (dv : Char → Option Nat) : List Char → Nat
  | [] => 0
  | c :: cs => (dv c).getD 0 * b ^ cs.length + valBE b dv cs

/-! ## The UUID converter hooks

`_setup_converter` registers
`result.register_structure_hook(uuid.UUID, lambda d, _: uuid.UUID(d))` and
`result.register_unstructure_hook(uuid.UUID, str)`.  A Python `uuid.UUID`
is a 128-bit integer; `str` renders it as 32 zero-padded lowercase hex
digits grouped `8-4-4-4-12`, and the `uuid.UUID` constructor strips the
hyphens, requires exactly 32 hex digits, and reads them back as an
integer (raising `ValueError` otherwise, modelled as `none`). -/

/-- The 32 lowercase hex digits of a 128-bit UUID value (`'%032x' % int`). -/
def uuidHexChars (n : Nat) : List Char := natBaseBE 16 hexChar 32 n

/-- `str(uuid.UUID)`: the hex digits grouped `8-4-4-4-12` with hyphens. -/
def uuidStrChars (n : Nat) : List Char :=
  let h := uuidHexChars n
  h.take 8 ++ '-' :: ((h.drop 8).take 4 ++ '-' :: ((h.drop 12).take 4 ++ '-' ::
    ((h.drop 16).take 4 ++ '-' :: h.drop 20)))

/-- The `CONVERTER` unstructure hook for `uuid.UUID` (that is, `str`). -/
def CONVERTER_unstructure_uuid (n : Nat) : String := ⟨uuidStrChars n⟩

/-- The `CONVERTER` structure hook for `uuid.UUID`
(`lambda d, _: uuid.UUID(d)`): remove hyphens, require 32 hex digits,
read the value. -/
def CONVERTER_structure_uuid (s : String) : Option Nat :=
  let hex := s.data.filter (fun c => c ≠ '-')
  if hex.length = 32 ∧ ∀ c ∈ hex, (hexVal c).isSome = true then
    some (valBE 16 hexVal hex)
  else none

/-- `s` is a canonical UUID string: five groups of lowercase hex digits of
lengths 8, 4, 4, 4 and 12, separated by hyphens. -/
def IsCanonicalUuid (s : String) : Prop :=
  ∃ g1 g2 g3 g4 g5 : List Char,
    g1.length = 8 ∧ g2.length = 4 ∧ g3.length = 4 ∧ g4.length = 4 ∧ g5.length = 12 ∧
    (∀ c ∈ g1 ++ g2 ++ g3 ++ g4 ++ g5, isLowerHex c = true) ∧
    s.data = g1 ++ '-' :: (g2 ++ '-' :: (g3 ++ '-' :: (g4 ++ '-' :: g5)))

/-! ## Python `datetime` values and the proleptic Gregorian calendar

A Python `datetime` is a record of calendar fields plus an optional fixed
UTC offset (`tzinfo`); we model the offset in whole seconds.  The calendar
arithmetic mirrors CPython's `datetime` module: `_ymd2ord` computes the
proleptic Gregorian ordinal from a date, and the inverse search recovers
the date from an ordinal. -/

/-- A Python `datetime.datetime` value: calendar and clock fields plus the
UTC offset of its `tzinfo` in seconds (`none` for a naive datetime). -/
structure PyDatetime where
  year : Nat
  month : Nat
  day : Nat
  hour : Nat
  minute : Nat
  second : Nat
  microsecond : Nat
  tz : Option Int
deriving DecidableEq, Repr

/-- Gregorian leap-year test. -/
def isLeap (y : Nat) : Bool := decide ((y % 4 = 0 ∧ y % 100 ≠ 0) ∨ y % 400 = 0)

/-- Number of days in month `m` of year `y` (CPython `_days_in_month`). -/
def daysInMonth (y m : Nat) : Nat :=
  match m with
  | 1 => 31
  | 2 => if isLeap y then 29 else 28
  | 3 => 31
  | 4 => 30
  | 5 => 31
  | 6 => 30
  | 7 => 31
  | 8 => 31
  | 9 => 30
  | 10 => 31
  | 11 => 30
  | 12 => 31
  | _ => 0

/-- Number of days in year `y` preceding month `m`
(CPython `_days_before_month`). -/
def daysBeforeMonth (y : Nat) : Nat → Nat
  | 0 => 0
  | m + 1 => daysBeforeMonth y m + daysInMonth y m

/-- Number of days in year `y`. -/
def daysInYear (y : Nat) : Nat := if isLeap y then 366 else 365

/-- Number of days before January 1 of year `y`
(CPython `_days_before_year`). -/
def daysBeforeYear (y : Nat) : Nat :=
  (y - 1) * 365 + (y - 1) / 4 - (y - 1) / 100 + (y - 1) / 400

/-- Proleptic Gregorian ordinal of a date, with 0001-01-01 as day 1
(CPython `_ymd2ord` / `datetime.toordinal`). -/
def dateToOrdinal (y m d : Nat) : Nat :=
  daysBeforeYear y + daysBeforeMonth y m + d

/-- Year search for the ordinal-to-date conversion: starting at year `y`
with `n` days remaining, advance whole years while they fit.  `fuel`
bounds the iteration so the recursion is structural. -/
def yearFromDays : Nat → Nat → Nat → Nat × Nat
  | 0, y, n => (y, n)
  | fuel + 1, y, n =>
    if daysInYear y < n then yearFromDays fuel (y + 1) (n - daysInYear y)
    else (y, n)

/-- Month search inside year `y`: starting at month `m` with `n` days
remaining, advance whole months while they fit. -/
def monthFromDays (y : Nat) : Nat → Nat → Nat → Nat × Nat
  | 0, m, n => (m, n)
  | fuel + 1, m, n =>
    if daysInMonth y m < n then monthFromDays y fuel (m + 1) (n - daysInMonth y m)
    else (m, n)

/-- Wall-clock time of a datetime as microseconds since 0001-01-01 00:00:00
(ignoring its timezone). -/
def totalUs (d : PyDatetime) : Nat :=
  ((dateToOrdinal d.year d.month d.day - 1) * 86400
    + d.hour * 3600 + d.minute * 60 + d.second) * 1000000 + d.microsecond

/-- The instant a datetime denotes, as microseconds since 0001-01-01
00:00:00 UTC (a naive datetime is read at offset zero). -/
def instantUs (d : PyDatetime) : Int :=
  (totalUs d : Int) - d.tz.getD 0 * 1000000

/-- One more microsecond than the largest representable wall-clock time
(year 9999, as in Python's `datetime.max`): `dateToOrdinal 9999 12 31`
is `3652059`. -/
def MAXUS : Nat := 3652059 * 86400000000

/-- Rebuild a datetime from a wall-clock time in microseconds since
0001-01-01 00:00:00, attaching UTC offset `off`; `none` if the value falls
outside Python's `datetime` range (Python raises `OverflowError`). -/
def fromTotalUs (u : Int) (off : Int) : Option PyDatetime :=
  if 0 ≤ u ∧ u < (MAXUS : Int) then
    let n : Nat := u.toNat
    let us := n % 1000000
    let ts := n / 1000000
    let s := ts % 60
    let mi := ts / 60 % 60
    let h := ts / 3600 % 24
    let (y, rest) := yearFromDays 9999 1 (ts / 86400 + 1)
    let (m, d) := monthFromDays y 11 1 rest
    some ⟨y, m, d, h, mi, s, us, some off⟩
  else none

/-- `datetime.replace(tzinfo=...)`: swap the timezone, keep the clock. -/
def pyReplaceTz (d : PyDatetime) (tz : Option Int) : PyDatetime := { d with tz := tz }

/-- `datetime.replace(microsecond=...)`. -/
def pyReplaceMicrosecond (d : PyDatetime) (us : Nat) : PyDatetime := { d with microsecond := us }

/-- `datetime.astimezone()` with the environment's local UTC offset `L`
(in seconds): convert to the same instant expressed at offset `L`.
A naive datetime is interpreted as local time, as Python does. -/
def pyAstimezone (L : Int) (d : PyDatetime) : Option PyDatetime :=
  fromTotalUs ((totalUs d : Int) - d.tz.getD L * 1000000 + L * 1000000) L

/-- The UTC-offset suffix of `datetime.isoformat()`: empty for a naive
datetime, otherwise `±HH:MM`, extended by `:SS` when the offset is not a
whole number of minutes. -/
def offsetChars : Option Int → List Char
  | none => []
  | some off =>
    let a := off.natAbs
    (if off < 0 then '-' else '+') :: natBaseBE 10 decChar 2 (a / 3600) ++ ':' ::
      natBaseBE 10 decChar 2 (a % 3600 / 60) ++
      (if a % 60 = 0 then [] else ':' :: natBaseBE 10 decChar 2 (a % 60))

/-- The characters of `datetime.isoformat()`:
`YYYY-MM-DDTHH:MM:SS[.ffffff][±HH:MM[:SS]]` (the fraction appears exactly
when the microsecond field is nonzero). -/
def isoformatChars (e : PyDatetime) : List Char :=
  natBaseBE 10 decChar 4 e.year ++ '-' :: natBaseBE 10 decChar 2 e.month ++ '-' ::
    natBaseBE 10 decChar 2 e.day ++ 'T' :: natBaseBE 10 decChar 2 e.hour ++ ':' ::
    natBaseBE 10 decChar 2 e.minute ++ ':' :: natBaseBE 10 decChar 2 e.second ++
    ((if e.microsecond = 0 then [] else '.' :: natBaseBE 10 decChar 6 e.microsecond) ++
      offsetChars e.tz)

/-- `datetime.isoformat()` as a string. -/
def isoformat (e : PyDatetime) : String := ⟨isoformatChars e⟩

/-- The `CONVERTER` unstructure hook for `datetime.datetime`, parametrised
by the local UTC offset `L` in seconds:
`obj.replace(tzinfo=datetime.timezone.utc).astimezone().replace(microsecond=0).isoformat()`.
`none` when `astimezone` overflows the datetime range. -/
def CONVERTER_unstructure_datetime (L : Int) (d : PyDatetime) : Option String :=
  (pyAstimezone L (pyReplaceTz d (some 0))).map (fun e => isoformat (pyReplaceMicrosecond e 0))

/-- Expect character `c` at the front of `cs`. -/
def expectChar (c : Char) : List Char → Option (List Char)
  | [] => none
  | x :: xs => if x = c then some xs else none

/-- Optional fractional-second part: `.ffffff` or nothing. -/
def parseFrac : List Char → Option (Nat × List Char)
  | '.' :: cs => readBase 10 decVal 6 0 cs
  | cs => some (0, cs)

/-- Optional seconds part of a UTC offset: `:SS` or nothing. -/
def parseOffsetSeconds : List Char → Option (Nat × List Char)
  | ':' :: cs => readBase 10 decVal 2 0 cs
  | cs => some (0, cs)

/-- Minutes-and-rest of a UTC offset after `±HH`: `:MM[:SS]`, end of input. -/
def parseOffsetMin (sign : Char) (oh : Nat) (cs : List Char) : Option (Option Int) :=
  match readBase 10 decVal 2 0 cs with
  | none => none
  | some (om, cs) =>
    match parseOffsetSeconds cs with
    | none => none
    | some (os, cs) =>
      if cs = [] then
        some (some (if sign = '-' then -((oh * 3600 + om * 60 + os : Nat) : Int)
          else ((oh * 3600 + om * 60 + os : Nat) : Int)))
      else none

/-- A UTC offset after its sign character: `HH:MM[:SS]`, end of input. -/
def parseOffsetHM (sign : Char) (cs : List Char) : Option (Option Int) :=
  match readBase 10 decVal 2 0 cs with
  | none => none
  | some (oh, cs) =>
    match expectChar ':' cs with
    | none => none
    | some cs => parseOffsetMin sign oh cs

/-- The offset suffix: nothing (naive) or `±HH:MM[:SS]`. -/
def parseOffsetPart : List Char → Option (Option Int)
  | [] => some (none : Option Int)
  | c :: cs => if c = '+' ∨ c = '-' then parseOffsetHM c cs else none

/-- `[.ffffff][±HH:MM[:SS]]` after the seconds field. -/
def parseTail (cs : List Char) : Option (Nat × Option Int) :=
  match parseFrac cs with
  | none => none
  | some (us, cs) =>
    match parseOffsetPart cs with
    | none => none
    | some tz => some (us, tz)

/-- `MM:SS` and the tail after `HH:`. -/
def parseMinuteOn (cs : List Char) : Option (Nat × Nat × Nat × Option Int) :=
  match readBase 10 decVal 2 0 cs with
  | none => none
  | some (mi, cs) =>
    match expectChar ':' cs with
    | none => none
    | some cs =>
      match readBase 10 decVal 2 0 cs with
      | none => none
      | some (se, cs) =>
        match parseTail cs with
        | none => none
        | some (us, tz) => some (mi, se, us, tz)

/-- `HH:MM:SS` and the tail. -/
def parseClock (cs : List Char) : Option (Nat × Nat × Nat × Nat × Option Int) :=
  match readBase 10 decVal 2 0 cs with
  | none => none
  | some (h, cs) =>
    match expectChar ':' cs with
    | none => none
    | some cs =>
      match parseMinuteOn cs with
      | none => none
      | some (mi, se, us, tz) => some (h, mi, se, us, tz)

/-- `MM-DD` after `YYYY-`. -/
def parseMonthDay (cs : List Char) : Option (Nat × Nat × List Char) :=
  match readBase 10 decVal 2 0 cs with
  | none => none
  | some (mo, cs) =>
    match expectChar '-' cs with
    | none => none
    | some cs =>
      match readBase 10 decVal 2 0 cs with
      | none => none
      | some (dy, cs) => some (mo, dy, cs)

/-- `dateutil.parser.parse` restricted to the ISO-8601 strings produced by
`isoformat`: `YYYY-MM-DDTHH:MM:SS[.ffffff][±HH:MM[:SS]]`; other inputs are
not exercised by the converter round trip and yield `none`. -/
def isoparse (s : String) : Option PyDatetime :=
  match readBase 10 decVal 4 0 s.data with
  | none => none
  | some (y, cs) =>
    match expectChar '-' cs with
    | none => none
    | some cs =>
      match parseMonthDay cs with
      | none => none
      | some (mo, dy, cs) =>
        match expectChar 'T' cs with
        | none => none
        | some cs =>
          match parseClock cs with
          | none => none
          | some (h, mi, se, us, tz) => some ⟨y, mo, dy, h, mi, se, us, tz⟩

/-- The `CONVERTER` structure hook for `datetime.datetime`
(`lambda d, _: dateutil.parser.parse(d)`), modelled on the ISO-8601
strings the unstructure hook emits. -/
def CONVERTER_structure_datetime (s : String) : Option PyDatetime := isoparse s

/-! ## The string-backed enumerations

Each `class E(Enum)` of `models.py` is a closed set of members with string
values; calling `E(s)` looks `s` up among the member values and raises
`ValueError` when it is absent, modelled by `parse` returning `none`. -/

/-- `CaseImportState`. -/
inductive CaseImportState
  | DRAFT | SUBMITTED | IMPORTED | EVICTED | FAILED
deriving DecidableEq, Repr, Fintype

/-- Member values of `CaseImportState`. -/
def CaseImportState.value : CaseImportState → String
  | .DRAFT => "draft"
  | .SUBMITTED => "submitted"
  | .IMPORTED => "imported"
  | .EVICTED => "evicted"
  | .FAILED => "failed"

/-- By-value lookup `CaseImportState(s)`. -/
def CaseImportState.parse (s : String) : Option CaseImportState :=
  if s = "draft" then some .DRAFT
  else if s = "submitted" then some .SUBMITTED
  else if s = "imported" then some .IMPORTED
  else if s = "evicted" then some .EVICTED
  else if s = "failed" then some .FAILED
  else none

/-- The declared member values of `CaseImportState`, in source order. -/
def CaseImportState.values : List String :=
  ["draft", "submitted", "imported", "evicted", "failed"]

/-- `VariantSetImportState`. -/
inductive VariantSetImportState
  | DRAFT | UPLOADED | IMPORTED | EVICTED | FAILED
deriving DecidableEq, Repr, Fintype

/-- Member values of `VariantSetImportState`. -/
def VariantSetImportState.value : VariantSetImportState → String
  | .DRAFT => "draft"
  | .UPLOADED => "uploaded"
  | .IMPORTED => "imported"
  | .EVICTED => "evicted"
  | .FAILED => "failed"

/-- By-value lookup `VariantSetImportState(s)`. -/
def VariantSetImportState.parse (s : String) : Option VariantSetImportState :=
  if s = "draft" then some .DRAFT
  else if s = "uploaded" then some .UPLOADED
  else if s = "imported" then some .IMPORTED
  else if s = "evicted" then some .EVICTED
  else if s = "failed" then some .FAILED
  else none

/-- The declared member values of `VariantSetImportState`, in source order. -/
def VariantSetImportState.values : List String :=
  ["draft", "uploaded", "imported", "evicted", "failed"]

/-- `GenomeBuild`. -/
inductive GenomeBuild
  | GRCH37 | GRCH38
deriving DecidableEq, Repr, Fintype

/-- Member values of `GenomeBuild`. -/
def GenomeBuild.value : GenomeBuild → String
  | .GRCH37 => "GRCh37"
  | .GRCH38 => "GRCh38"

/-- By-value lookup `GenomeBuild(s)`. -/
def GenomeBuild.parse (s : String) : Option GenomeBuild :=
  if s = "GRCh37" then some .GRCH37
  else if s = "GRCh38" then some .GRCH38
  else none

/-- The declared member values of `GenomeBuild`, in source order. -/
def GenomeBuild.values : List String := ["GRCh37", "GRCh38"]

/-- `CaseVariantType`. -/
inductive CaseVariantType
  | SMALL | STRUCTURAL
deriving DecidableEq, Repr, Fintype

/-- Member values of `CaseVariantType`. -/
def CaseVariantType.value : CaseVariantType → String
  | .SMALL => "SMALL"
  | .STRUCTURAL => "STRUCTURAL"

/-- By-value lookup `CaseVariantType(s)`. -/
def CaseVariantType.parse (s : String) : Option CaseVariantType :=
  if s = "SMALL" then some .SMALL
  else if s = "STRUCTURAL" then some .STRUCTURAL
  else none

/-- The declared member values of `CaseVariantType`, in source order. -/
def CaseVariantType.values : List String := ["SMALL", "STRUCTURAL"]

/-- `EffectsV1` (decorated `@unique`). -/
inductive EffectsV1
  | THREE_PRIME_UTR_EXON_VARIANT
  | THREE_PRIME_UTR_INTRON_VARIANT
  | FIVE_PRIME_UTR_EXON_VARIANT
  | FIVE_PRIME_UTR_INTRON_VARIANT
  | CODING_TRANSCRIPT_INTRON_VARIANT
  | COMPLEX_SUBSTITUTION
  | DIRECT_TANDEM_DUPLICATION
  | DISRUPTIVE_INFRAME_DELETION
  | DISRUPTIVE_INFRAME_INSERTION
  | DOWNSTREAM_GENE_VARIANT
  | EXON_LOSS_VARIANT
  | FEATURE_TRUNCATION
  | FRAMESHIFT_ELONGATION
  | FRAMESHIFT_TRUNCATION
  | FRAMESHIFT_VARIANT
  | INFRAME_DELETION
  | INFRAME_INSERTION
  | INTERGENIC_VARIANT
  | INTERNAL_FEATURE_ELONGATION
  | MISSENSE_VARIANT
  | MNV
  | NON_CODING_TRANSCRIPT_EXON_VARIANT
  | NON_CODING_TRANSCRIPT_INTRON_VARIANT
  | SLICE_ACCEPTOR_VARIANT
  | SPLICE_DONOR_VARIANT
  | SPLICE_REGION_VARIANT
  | START_LOST
  | STOP_GAINED
  | STOP_LOST
  | STOP_RETAINED_VARIANT
  | STRUCTURAL_VARIANT
  | SYNONYMOUS_VARIANT
  | TRANSCRIPT_ABLATION
  | UPSTREAM_GENE_VARIANT
deriving DecidableEq, Repr, Fintype

/-- Member values of `EffectsV1`. -/
def EffectsV1.value : EffectsV1 → String
  | .THREE_PRIME_UTR_EXON_VARIANT => "3_prime_UTR_exon_variant"
  | .THREE_PRIME_UTR_INTRON_VARIANT => "3_prime_UTR_intron_variant"
  | .FIVE_PRIME_UTR_EXON_VARIANT => "5_prime_UTR_exon_variant"
  | .FIVE_PRIME_UTR_INTRON_VARIANT => "5_prime_UTR_intron_variant"
  | .CODING_TRANSCRIPT_INTRON_VARIANT => "coding_transcript_intron_variant"
  | .COMPLEX_SUBSTITUTION => "complex_substitution"
  | .DIRECT_TANDEM_DUPLICATION => "direct_tandem_duplication"
  | .DISRUPTIVE_INFRAME_DELETION => "disruptive_inframe_deletion"
  | .DISRUPTIVE_INFRAME_INSERTION => "disruptive_inframe_insertion"
  | .DOWNSTREAM_GENE_VARIANT => "downstream_gene_variant"
  | .EXON_LOSS_VARIANT => "exon_loss_variant"
  | .FEATURE_TRUNCATION => "feature_truncation"
  | .FRAMESHIFT_ELONGATION => "frameshift_elongation"
  | .FRAMESHIFT_TRUNCATION => "frameshift_truncation"
  | .FRAMESHIFT_VARIANT => "frameshift_variant"
  | .INFRAME_DELETION => "inframe_deletion"
  | .INFRAME_INSERTION => "inframe_insertion"
  | .INTERGENIC_VARIANT => "intergenic_variant"
  | .INTERNAL_FEATURE_ELONGATION => "internal_feature_elongation"
  | .MISSENSE_VARIANT => "missense_variant"
  | .MNV => "mnv"
  | .NON_CODING_TRANSCRIPT_EXON_VARIANT => "non_coding_transcript_exon_variant"
  | .NON_CODING_TRANSCRIPT_INTRON_VARIANT => "non_coding_transcript_intron_variant"
  | .SLICE_ACCEPTOR_VARIANT => "splice_acceptor_variant"
  | .SPLICE_DONOR_VARIANT => "splice_donor_variant"
  | .SPLICE_REGION_VARIANT => "splice_region_variant"
  | .START_LOST => "start_lost"
  | .STOP_GAINED => "stop_gained"
  | .STOP_LOST => "stop_lost"
  | .STOP_RETAINED_VARIANT => "stop_retained_variant"
  | .STRUCTURAL_VARIANT => "structural_variant"
  | .SYNONYMOUS_VARIANT => "synonymous_variant"
  | .TRANSCRIPT_ABLATION => "transcript_ablation"
  | .UPSTREAM_GENE_VARIANT => "upstream_gene_variant"

/-- By-value lookup `EffectsV1(s)`. -/
def EffectsV1.parse (s : String) : Option EffectsV1 :=
  if s = "3_prime_UTR_exon_variant" then some .THREE_PRIME_UTR_EXON_VARIANT
  else if s = "3_prime_UTR_intron_variant" then some .THREE_PRIME_UTR_INTRON_VARIANT
  else if s = "5_prime_UTR_exon_variant" then some .FIVE_PRIME_UTR_EXON_VARIANT
  else if s = "5_prime_UTR_intron_variant" then some .FIVE_PRIME_UTR_INTRON_VARIANT
  else if s = "coding_transcript_intron_variant" then some .CODING_TRANSCRIPT_INTRON_VARIANT
  else if s = "complex_substitution" then some .COMPLEX_SUBSTITUTION
  else if s = "direct_tandem_duplication" then some .DIRECT_TANDEM_DUPLICATION
  else if s = "disruptive_inframe_deletion" then some .DISRUPTIVE_INFRAME_DELETION
  else if s = "disruptive_inframe_insertion" then some .DISRUPTIVE_INFRAME_INSERTION
  else if s = "downstream_gene_variant" then some .DOWNSTREAM_GENE_VARIANT
  else if s = "exon_loss_variant" then some .EXON_LOSS_VARIANT
  else if s = "feature_truncation" then some .FEATURE_TRUNCATION
  else if s = "frameshift_elongation" then some .FRAMESHIFT_ELONGATION
  else if s = "frameshift_truncation" then some .FRAMESHIFT_TRUNCATION
  else if s = "frameshift_variant" then some .FRAMESHIFT_VARIANT
  else if s = "inframe_deletion" then some .INFRAME_DELETION
  else if s = "inframe_insertion" then some .INFRAME_INSERTION
  else if s = "intergenic_variant" then some .INTERGENIC_VARIANT
  else if s = "internal_feature_elongation" then some .INTERNAL_FEATURE_ELONGATION
  else if s = "missense_variant" then some .MISSENSE_VARIANT
  else if s = "mnv" then some .MNV
  else if s = "non_coding_transcript_exon_variant" then some .NON_CODING_TRANSCRIPT_EXON_VARIANT
  else if s = "non_coding_transcript_intron_variant" then some .NON_CODING_TRANSCRIPT_INTRON_VARIANT
  else if s = "splice_acceptor_variant" then some .SLICE_ACCEPTOR_VARIANT
  else if s = "splice_donor_variant" then some .SPLICE_DONOR_VARIANT
  else if s = "splice_region_variant" then some .SPLICE_REGION_VARIANT
  else if s = "start_lost" then some .START_LOST
  else if s = "stop_gained" then some .STOP_GAINED
  else if s = "stop_lost" then some .STOP_LOST
  else if s = "stop_retained_variant" then some .STOP_RETAINED_VARIANT
  else if s = "structural_variant" then some .STRUCTURAL_VARIANT
  else if s = "synonymous_variant" then some .SYNONYMOUS_VARIANT
  else if s = "transcript_ablation" then some .TRANSCRIPT_ABLATION
  else if s = "upstream_gene_variant" then some .UPSTREAM_GENE_VARIANT
  else none

/-- The declared member values of `EffectsV1`, in source order. -/
def EffectsV1.values : List String :=
  ["3_prime_UTR_exon_variant", "3_prime_UTR_intron_variant",
   "5_prime_UTR_exon_variant", "5_prime_UTR_intron_variant",
   "coding_transcript_intron_variant", "complex_substitution",
   "direct_tandem_duplication", "disruptive_inframe_deletion",
   "disruptive_inframe_insertion", "downstream_gene_variant",
   "exon_loss_variant", "feature_truncation", "frameshift_elongation",
   "frameshift_truncation", "frameshift_variant", "inframe_deletion",
   "inframe_insertion", "intergenic_variant", "internal_feature_elongation",
   "missense_variant", "mnv", "non_coding_transcript_exon_variant",
   "non_coding_transcript_intron_variant", "splice_acceptor_variant",
   "splice_donor_variant", "splice_region_variant", "start_lost",
   "stop_gained", "stop_lost", "stop_retained_variant", "structural_variant",
   "synonymous_variant", "transcript_ablation", "upstream_gene_variant"]

/-- `RecessiveModeV1` (decorated `@unique`). -/
inductive RecessiveModeV1
  | RECESSIVE | COMPOUND_RECESSIVE
deriving DecidableEq, Repr, Fintype

/-- Member values of `RecessiveModeV1`. -/
def RecessiveModeV1.value : RecessiveModeV1 → String
  | .RECESSIVE => "recessive"
  | .COMPOUND_RECESSIVE => "compound-recessive"

/-- By-value lookup `RecessiveModeV1(s)`. -/
def RecessiveModeV1.parse (s : String) : Option RecessiveModeV1 :=
  if s = "recessive" then some .RECESSIVE
  else if s = "compound-recessive" then some .COMPOUND_RECESSIVE
  else none

/-- The declared member values of `RecessiveModeV1`, in source order. -/
def RecessiveModeV1.values : List String := ["recessive", "compound-recessive"]

/-- `FailChoiceV1`. -/
inductive FailChoiceV1
  | IGNORE | DROP_VARIANT | NO_CALL
deriving DecidableEq, Repr, Fintype

/-- Member values of `FailChoiceV1`. -/
def FailChoiceV1.value : FailChoiceV1 → String
  | .IGNORE => "ignore"
  | .DROP_VARIANT => "drop-variant"
  | .NO_CALL => "no-call"

/-- By-value lookup `FailChoiceV1(s)`. -/
def FailChoiceV1.parse (s : String) : Option FailChoiceV1 :=
  if s = "ignore" then some .IGNORE
  else if s = "drop-variant" then some .DROP_VARIANT
  else if s = "no-call" then some .NO_CALL
  else none

/-- The declared member values of `FailChoiceV1`, in source order. -/
def FailChoiceV1.values : List String := ["ignore", "drop-variant", "no-call"]

/-- `GenotypeChoiceV1` (decorated `@unique`). -/
inductive GenotypeChoiceV1
  | ANY | REF | HET | HOM | NON_HOM | REFERENCE | VARIANT | NON_VARIANT | NON_REFERENCE
deriving DecidableEq, Repr, Fintype

/-- Member values of `GenotypeChoiceV1`. -/
def GenotypeChoiceV1.value : GenotypeChoiceV1 → String
  | .ANY => "any"
  | .REF => "ref"
  | .HET => "het"
  | .HOM => "hom"
  | .NON_HOM => "non-hom"
  | .REFERENCE => "reference"
  | .VARIANT => "variant"
  | .NON_VARIANT => "non-variant"
  | .NON_REFERENCE => "non-reference"

/-- By-value lookup `GenotypeChoiceV1(s)`. -/
def GenotypeChoiceV1.parse (s : String) : Option GenotypeChoiceV1 :=
  if s = "any" then some .ANY
  else if s = "ref" then some .REF
  else if s = "het" then some .HET
  else if s = "hom" then some .HOM
  else if s = "non-hom" then some .NON_HOM
  else if s = "reference" then some .REFERENCE
  else if s = "variant" then some .VARIANT
  else if s = "non-variant" then some .NON_VARIANT
  else if s = "non-reference" then some .NON_REFERENCE
  else none

/-- The declared member values of `GenotypeChoiceV1`, in source order. -/
def GenotypeChoiceV1.values : List String :=
  ["any", "ref", "het", "hom", "non-hom", "reference", "variant",
   "non-variant", "non-reference"]

/-! ## The record types

Each `@attr.s(frozen=True, auto_attribs=True)` class becomes a Lean
structure; Python `typing.Optional[T] = None` defaults become
`Option T := none`.  `uuid.UUID` fields are 128-bit naturals, `float`
fields use a rational placeholder (no claim computes with them). -/

/-- 128-bit UUID values. -/
abbrev Uuid := Nat

/-- Placeholder for Python `float` field values; no verified operation
computes with them. -/
abbrev PyFloat := Rat

/-- `PedigreeMember`. -/
structure PedigreeMember where
  name : String
  father : String
  mother : String
  sex : Int
  affected : Int
  has_gt_entries : Bool
deriving DecidableEq, Repr

/-- `Case`. -/
structure Case where
  sodar_uuid : Uuid
  date_created : PyDatetime
  date_modified : PyDatetime
  name : String
  index : String
  pedigree : List PedigreeMember
  num_small_vars : Option Int
  num_svs : Option Int
deriving DecidableEq, Repr

/-- `CaseImportInfo`. -/
structure CaseImportInfo where
  release : GenomeBuild
  name : String
  index : String
  pedigree : List PedigreeMember
  sodar_uuid : Option Uuid := none
  owner : Option String := none
  date_created : Option PyDatetime := none
  date_modified : Option PyDatetime := none
  project : Option Uuid := none
  «case» : Option Uuid := none
  state : CaseImportState := .DRAFT
  notes : Option String := none
  tags : List String := []
deriving DecidableEq, Repr

/-- `VariantSetImportInfo`. -/
structure VariantSetImportInfo where
  genomebuild : GenomeBuild
  variant_type : CaseVariantType
  sodar_uuid : Option Uuid := none
  date_created : Option PyDatetime := none
  date_modified : Option PyDatetime := none
  case_import_info : Option Uuid := none
  state : VariantSetImportState := .DRAFT
deriving DecidableEq, Repr

/-- `BamQcFile`. -/
structure BamQcFile where
  name : String
  md5 : String
  sodar_uuid : Option Uuid := none
  date_created : Option PyDatetime := none
  date_modified : Option PyDatetime := none
  case_import_info : Option Uuid := none
deriving DecidableEq, Repr

/-- `GenotypeFile`. -/
structure GenotypeFile where
  name : String
  md5 : String
  sodar_uuid : Option Uuid := none
  date_created : Option PyDatetime := none
  date_modified : Option PyDatetime := none
  case_import_info : Option Uuid := none
deriving DecidableEq, Repr

/-- `EffectsFile`. -/
structure EffectsFile where
  name : String
  md5 : String
  sodar_uuid : Option Uuid := none
  date_created : Option PyDatetime := none
  date_modified : Option PyDatetime := none
  case_import_info : Option Uuid := none
deriving DecidableEq, Repr

/-- `DatabaseInfoFile`. -/
structure DatabaseInfoFile where
  name : String
  md5 : String
  sodar_uuid : Option Uuid := none
  date_created : Option PyDatetime := none
  date_modified : Option PyDatetime := none
  case_import_info : Option Uuid := none
deriving DecidableEq, Repr

/-- `QualitySettingsV1`. -/
structure QualitySettingsV1 where
  dp_het : Option Int := none
  dp_hom : Option Int := none
  number : Option PyFloat := none
  gq : Option Int := none
  ab : Option PyFloat := none
  ad : Option Int := none
  ad_max : Option Int := none
  fail : FailChoiceV1 := .IGNORE
deriving DecidableEq, Repr

/-- `RangeV1`. -/
structure RangeV1 where
  start : Int
  «end» : Int
deriving DecidableEq, Repr

/-- `GenomicRegionV1`. -/
structure GenomicRegionV1 where
  chromosome : String
  range : Option RangeV1 := none
deriving DecidableEq, Repr

/-- `convert_genomic_region_v1`: a `RangeV1` instance is always truthy in
Python and `None` is falsy, so `if region.range` tests presence. -/
def convert_genomic_region_v1 (region : GenomicRegionV1) :
    String × Option Int × Option Int :=
  match region.range with
  | some r => (region.chromosome, some r.start, some r.«end»)
  | none => (region.chromosome, none, none)

/-- `CaseQuerySettingsV1`. -/
structure CaseQuerySettingsV1 where
  database : String
  effects : List EffectsV1
  exac_enabled : Bool
  gnomad_exomes_enabled : Bool
  gnomad_genomes_enabled : Bool
  thousand_genomes_enabled : Bool
  inhouse_enabled : Bool
  mtdb_enabled : Bool
  helixmtdb_enabled : Bool
  mitomap_enabled : Bool
  quality : List (String × QualitySettingsV1)
  genotype : List (String × GenotypeChoiceV1)
  transcripts_coding : Bool := true
  transcripts_noncoding : Bool := false
  var_type_snv : Bool := true
  var_type_indel : Bool := true
  var_type_mnv : Bool := true
  max_exon_dist : Option Int := none
  flag_simple_empty : Bool := true
  flag_bookmarked : Bool := true
  flag_candidate : Bool := true
  flag_doesnt_segregate : Bool := true
  flag_final_causative : Bool := true
  flag_for_validation : Bool := true
  flag_no_disease_association : Bool := true
  flag_segregates : Bool := true
  flag_molecular_empty : Bool := true
  flag_molecular_negative : Bool := true
  flag_molecular_positive : Bool := true
  flag_molecular_uncertain : Bool := true
  flag_phenotype_empty : Bool := true
  flag_phenotype_negative : Bool := true
  flag_phenotype_positive : Bool := true
  flag_phenotype_uncertain : Bool := true
  flag_summary_empty : Bool := true
  flag_summary_negative : Bool := true
  flag_summary_positive : Bool := true
  flag_summary_uncertain : Bool := true
  flag_validation_empty : Bool := true
  flag_validation_negative : Bool := true
  flag_validation_positive : Bool := true
  flag_validation_uncertain : Bool := true
  flag_visual_empty : Bool := true
  flag_visual_negative : Bool := true
  flag_visual_positive : Bool := true
  flag_visual_uncertain : Bool := true
  gene_allowlist : Option (List String) := none
  gene_blocklist : Option (List String) := none
  genomic_region : Option (List GenomicRegionV1) := none
  remove_if_in_dbsnp : Bool := false
  require_in_hgmd_public : Bool := false
  require_in_clinvar : Bool := false
  clinvar_include_benign : Bool := true
  clinvar_include_pathogenic : Bool := true
  clinvar_include_likely_benign : Bool := true
  clinvar_include_likely_pathogenic : Bool := true
  clinvar_include_uncertain_significance : Bool := true
  patho_enabled : Bool := false
  patho_score : Option String := none
  prio_enabled : Bool := false
  prio_algorithm : Option String := none
  prio_hpo_terms : Option (List String) := none
  recessive_mode : Option RecessiveModeV1 := none
  recessive_index : Option String := none
  denovo_index : Option String := none
  exac_frequency : Option PyFloat := none
  exac_heterozygous : Option Int := none
  exac_homozygous : Option Int := none
  exac_hemizygous : Option Int := none
  gnomad_exomes_frequency : Option PyFloat := none
  gnomad_exomes_heterozygous : Option Int := none
  gnomad_exomes_homozygous : Option Int := none
  gnomad_exomes_hemizygous : Option Int := none
  gnomad_genomes_frequency : Option PyFloat := none
  gnomad_genomes_heterozygous : Option Int := none
  gnomad_genomes_homozygous : Option Int := none
  gnomad_genomes_hemizygous : Option Int := none
  thousand_genomes_frequency : Option PyFloat := none
  thousand_genomes_heterozygous : Option Int := none
  thousand_genomes_homozygous : Option Int := none
  thousand_genomes_hemizygous : Option Int := none
  inhouse_carriers : Option Int := none
  inhouse_heterozygous : Option Int := none
  inhouse_homozygous : Option Int := none
  inhouse_hemizygous : Option Int := none
  mtdb_count : Option Int := none
  mtdb_frequency : Option PyFloat := none
  helixmtdb_frequency : Option PyFloat := none
  helixmtdb_het_count : Option Int := none
  helixmtdb_hom_count : Option Int := none
  mitomap_count : Option Int := none
  mitmomap_frequency : Option PyFloat := none
deriving DecidableEq, Repr

/-- `CaseQueryV1`.  Note that `name` is `Optional`-typed but has no
default: it is a required constructor argument. -/
structure CaseQueryV1 where
  name : Option String
  public : Bool := false
  query_settings : Option CaseQuerySettingsV1 := none
deriving DecidableEq, Repr

/-! ## Declaration metadata

For claims about the shape of the declarations themselves (which fields
are `Optional`-typed, which have defaults, which classes are frozen) we
record the declarations as data, read off directly from the source. -/

/-- One attrs field declaration: its name, whether its annotation is
`typing.Optional[...]`, and whether it carries a default value. -/
structure FieldDecl where
  fieldName : String
  optionalType : Bool
  hasDefault : Bool
deriving DecidableEq, Repr

/-- The field declarations of `Case`, in source order. -/
def caseFieldDecls : List FieldDecl :=
  [⟨"sodar_uuid", false, false⟩,
   ⟨"date_created", false, false⟩,
   ⟨"date_modified", false, false⟩,
   ⟨"name", false, false⟩,
   ⟨"index", false, false⟩,
   ⟨"pedigree", false, false⟩,
   ⟨"num_small_vars", true, false⟩,
   ⟨"num_svs", true, false⟩]

/-- The field declarations of `CaseQueryV1`, in source order. -/
def caseQueryV1FieldDecls : List FieldDecl :=
  [⟨"name", true, false⟩,
   ⟨"public", false, true⟩,
   ⟨"query_settings", true, true⟩]

/-- One attrs class declaration: its name and its `frozen=` flag. -/
structure AttrsClassDecl where
  className : String
  frozen : Bool
deriving DecidableEq, Repr

/-- The record classes of `models.py` with their `frozen=` flags, read
off the `@attr.s(...)` decorators. -/
def recordClassDecls : List AttrsClassDecl :=
  [⟨"PedigreeMember", true⟩,
   ⟨"Case", true⟩,
   ⟨"CaseImportInfo", true⟩,
   ⟨"VariantSetImportInfo", true⟩,
   ⟨"BamQcFile", true⟩,
   ⟨"GenotypeFile", true⟩,
   ⟨"EffectsFile", true⟩,
   ⟨"DatabaseInfoFile", true⟩,
   ⟨"QualitySettingsV1", true⟩,
   ⟨"RangeV1", true⟩,
   ⟨"GenomicRegionV1", true⟩,
   ⟨"CaseQuerySettingsV1", true⟩,
   ⟨"CaseQueryV1", true⟩]

/-- Outcome of assigning an attribute on an attrs instance. -/
inductive SetattrResult
  | frozenError
  | assigned
deriving DecidableEq, Repr

/-- attrs attribute assignment: a class declared `frozen=True` raises
`FrozenInstanceError`; otherwise it assigns. -/
def attrsSetattr (frozen : Bool) : SetattrResult :=
  if frozen then .frozenError else .assigned

/-! ## JSON values and `json.dump(..., indent="  ")`

The two query commands dump an arbitrary decoded JSON response.  We model
JSON values and the exact serialization Python produces for
`indent="  "` (two-space indentation, `", "`-free separators:
item separator `,` + newline + indent, key separator `: `). -/

/-- A JSON value as decoded from an API response. -/
inductive JValue
  | null
  | bool (b : Bool)
  | num (n : Int)
  | str (s : String)
  | arr (elts : List JValue)
  | obj (fields : List (String × JValue))
deriving Repr

/-- JSON string escaping for one character. -/
def escapeJChar (c : Char) : List Char :=
  if c = '"' then ['\\', '"']
  else if c = '\\' then ['\\', '\\']
  else if c = '\n' then ['\\', 'n']
  else if c = '\t' then ['\\', 't']
  else if c = '\r' then ['\\', 'r']
  else [c]

/-- A JSON string literal with surrounding quotes. -/
def quoteJString (s : String) : String :=
  ⟨'"' :: ((s.data.map escapeJChar).flatten ++ ['"'])⟩

/-- `k` levels of two-space indentation. -/
def indentPad (k : Nat) : String := ⟨List.replicate (2 * k) ' '⟩

mutual

/-- `json.dumps(v, indent="  ")` at nesting depth `k`. -/
def dumpJValue : JValue → Nat → String
  | .null, _ => "null"
  | .bool true, _ => "true"
  | .bool false, _ => "false"
  | .num n, _ => toString n
  | .str s, _ => quoteJString s
  | .arr [], _ => "[]"
  | .arr (x :: xs), k =>
    "[\n" ++ indentPad (k + 1) ++ dumpJValue x (k + 1) ++ dumpArrItems xs (k + 1)
      ++ "\n" ++ indentPad k ++ "]"
  | .obj [], _ => "\x7b\x7d"
  | .obj ((key, v) :: fs), k =>
    "\x7b\n" ++ indentPad (k + 1) ++ quoteJString key ++ ": " ++ dumpJValue v (k + 1)
      ++ dumpObjItems fs (k + 1) ++ "\n" ++ indentPad k ++ "\x7d"

/-- Remaining array items, each preceded by `,` newline indent. -/
def dumpArrItems : List JValue → Nat → String
  | [], _ => ""
  | x :: xs, k => ",\n" ++ indentPad k ++ dumpJValue x k ++ dumpArrItems xs k

/-- Remaining object items, each preceded by `,` newline indent. -/
def dumpObjItems : List (String × JValue) → Nat → String
  | [], _ => ""
  | (key, v) :: fs, k =>
    ",\n" ++ indentPad k ++ quoteJString key ++ ": " ++ dumpJValue v k ++ dumpObjItems fs k

end

/-! ## The two query commands

`small_var_query_status.run` and `small_var_query_fetch_results.run` fetch
a response and print it.  We model the sequence of operations each
performs on its output file; `print(s, file=f)` writes `s` plus a newline,
`json.dump(res, file, indent="  ")` writes the serialization with no
trailing newline. -/

/-- An effect on the output file. -/
inductive FileOp
  | write (s : String)
  | flush
deriving DecidableEq, Repr

/-- The writes of `small_var_query_status.run` after the response `res`
arrives: title, underline, blank line, JSON dump, newline, flush. -/
def small_var_query_status_ops (res : JValue) : List FileOp :=
  [.write "Query Status\n",
   .write "============\n",
   .write "\n",
   .write (dumpJValue res 0),
   .write "\n",
   .flush]

/-- The writes of `small_var_query_fetch_results.run` after the response
`res` arrives: title, underline, blank line, JSON dump. -/
def small_var_query_fetch_results_ops (res : JValue) : List FileOp :=
  [.write "Query Results\n",
   .write "=============\n",
   .write "\n",
   .write (dumpJValue res 0)]

/-- The text an operation sequence writes to the file. -/
def outputOf : List FileOp → String
  | [] => ""
  | .write s :: ops => s ++ outputOf ops
  | .flush :: ops => outputOf ops

/-! ## `varannosetentry-list` header selection -/

/-- Modelled from the spec: the output format selector of the
`varannos` command group ("an output formatter selecting among
table/CSV/JSON rendering"); its defining module
(`varfish_cli/varannos/config.py`) is not among the provided sources. -/
inductive OutputFormat
  | table
  | csv
  | json
deriving DecidableEq, Repr

/-- `DEFAULT_FIELDS` of `varannosetentry_list.py`: the default header
fields by output format. -/
def DEFAULT_FIELDS : OutputFormat → Option (List String)
  | .table =>
    some ["sodar_uuid", "date_modified", "varannoset", "release", "chromosome",
      "start", "reference", "alternative", "payload"]
  | .csv => none
  | .json => none

/-- Python `x or y` on an optional field sequence: `None` and the empty
sequence are falsy. -/
def pyOrFields (a b : Option (List String)) : Option (List String) :=
  match a with
  | some l => if l.isEmpty then b else some l
  | none => b

/-- The header computed by `varannosetentry_list.run`: `output_fields` is
first defaulted per format (`attrs.evolve` with
`output_fields or DEFAULT_FIELDS.get(output_format)`), then the header is
that value if truthy, else the full ordered field-name list of
`VarAnnoSetEntryV1` (passed here as `allFields`, since that class is
defined outside the provided sources). -/
def varannosetentry_list_header (output_fields : Option (List String))
    (fmt : OutputFormat) (allFields : List String) : List String :=
  match pyOrFields output_fields (DEFAULT_FIELDS fmt) with
  | some l => if l.isEmpty then allFields else l
  | none => allFields

/-! # Theorems -/

theorem decVal_decChar : ∀ d < 10, decVal (decChar d) = some d := by decide

theorem hexVal_hexChar : ∀ d < 16, hexVal (hexChar d) = some d := by decide

theorem natBaseBE_length (b : Nat) (dc : Nat → Char) :
    ∀ w n, (natBaseBE b dc w n).length = w := by
  intro w
  induction w with
  | zero => intro n; rfl
  | succ w ih => intro n; simp [natBaseBE, ih]

/-- Reading back a fixed-width digit string recovers the value. -/
theorem readBase_natBaseBE (b : Nat) (dc : Nat → Char) (dv : Char → Option Nat)
    (hb : 0 < b) (hdv : ∀ d < b, dv (dc d) = some d) :
    ∀ w acc n rest, n < b ^ w →
      readBase b dv w acc (natBaseBE b dc w n ++ rest) = some (acc * b ^ w + n, rest) := by
  intro w
  induction w with
  | zero =>
    intro acc n rest hn
    have hn0 : n = 0 := by simpa using hn
    subst hn0
    simp [natBaseBE, readBase]
  | succ w ih =>
    intro acc n rest hn
    have hq : n / b ^ w < b := by
      rw [Nat.div_lt_iff_lt_mul (Nat.pos_pow_of_pos w hb)]
      have hbp : b ^ (w + 1) = b * b ^ w := by ring
      exact hbp ▸ hn
    have hr : n % b ^ w < b ^ w := Nat.mod_lt _ (Nat.pos_pow_of_pos w hb)
    simp only [natBaseBE, List.cons_append, readBase, hdv _ hq]
    rw [List.append_eq, ih (acc * b + n / b ^ w) (n % b ^ w) rest hr]
    have hd : b ^ w * (n / b ^ w) + n % b ^ w = n := Nat.div_add_mod n (b ^ w)
    have hv : (acc * b + n / b ^ w) * b ^ w + n % b ^ w = acc * b ^ (w + 1) + n := by
      calc (acc * b + n / b ^ w) * b ^ w + n % b ^ w
          = acc * (b ^ w * b) + (b ^ w * (n / b ^ w) + n % b ^ w) := by ring
        _ = acc * b ^ (w + 1) + n := by rw [hd, pow_succ]
    rw [hv]

theorem readBase_dec_natBaseBE (w acc n : Nat) (rest : List Char) (hn : n < 10 ^ w) :
    readBase 10 decVal w acc (natBaseBE 10 decChar w n ++ rest) = some (acc * 10 ^ w + n, rest) :=
  readBase_natBaseBE 10 decChar decVal (by norm_num) decVal_decChar w acc n rest hn

theorem readBase_hex_natBaseBE (w acc n : Nat) (rest : List Char) (hn : n < 16 ^ w) :
    readBase 16 hexVal w acc (natBaseBE 16 hexChar w n ++ rest) = some (acc * 16 ^ w + n, rest) :=
  readBase_natBaseBE 16 hexChar hexVal (by norm_num) hexVal_hexChar w acc n rest hn

theorem hexChar_hexVal_lower {c : Char} (h : isLowerHex c = true) :
    hexChar ((hexVal c).getD 0) = c := by
  have hm : c ∈ lowerHexDigits := by
    simpa [isLowerHex] using h
  fin_cases hm <;> rfl

theorem hexVal_isSome_of_lower {c : Char} (h : isLowerHex c = true) :
    (hexVal c).isSome = true := by
  have hm : c ∈ lowerHexDigits := by
    simpa [isLowerHex] using h
  fin_cases hm <;> rfl

theorem hexVal_lt_of_lower {c : Char} (h : isLowerHex c = true) :
    (hexVal c).getD 0 < 16 := by
  have hm : c ∈ lowerHexDigits := by
    simpa [isLowerHex] using h
  fin_cases hm <;> decide

theorem ne_dash_of_lower {c : Char} (h : isLowerHex c = true) : c ≠ '-' := by
  have hm : c ∈ lowerHexDigits := by
    simpa [isLowerHex] using h
  fin_cases hm <;> decide

theorem valBE_lt (l : List Char) (h : ∀ c ∈ l, isLowerHex c = true) :
    valBE 16 hexVal l < 16 ^ l.length := by
  induction l with
  | nil => simp [valBE]
  | cons c cs ih =>
    have hc : (hexVal c).getD 0 < 16 := hexVal_lt_of_lower (h c (by simp))
    have hcs := ih (fun x hx => h x (by simp [hx]))
    simp only [valBE, List.length_cons, pow_succ]
    calc (hexVal c).getD 0 * 16 ^ cs.length + valBE 16 hexVal cs
        < (hexVal c).getD 0 * 16 ^ cs.length + 16 ^ cs.length := by omega
      _ = ((hexVal c).getD 0 + 1) * 16 ^ cs.length := by ring
      _ ≤ 16 * 16 ^ cs.length := by
          have : (hexVal c).getD 0 + 1 ≤ 16 := hc
          exact Nat.mul_le_mul_right _ this
      _ = 16 ^ cs.length * 16 := by ring

/-- Printing the value of a lowercase hex digit string (at its own width)
returns the string itself. -/
theorem natBaseBE_valBE (l : List Char) (h : ∀ c ∈ l, isLowerHex c = true) :
    natBaseBE 16 hexChar l.length (valBE 16 hexVal l) = l := by
  induction l with
  | nil => rfl
  | cons c cs ih =>
    have hd : (hexVal c).getD 0 < 16 := hexVal_lt_of_lower (h c (by simp))
    have hv : valBE 16 hexVal cs < 16 ^ cs.length :=
      valBE_lt cs (fun x hx => h x (by simp [hx]))
    have hdiv : ((hexVal c).getD 0 * 16 ^ cs.length + valBE 16 hexVal cs) / 16 ^ cs.length
        = (hexVal c).getD 0 := by
      rw [Nat.mul_comm, Nat.mul_add_div (Nat.pos_pow_of_pos _ (by norm_num)),
        Nat.div_eq_of_lt hv]
      omega
    have hmod : ((hexVal c).getD 0 * 16 ^ cs.length + valBE 16 hexVal cs) % 16 ^ cs.length
        = valBE 16 hexVal cs := by
      rw [Nat.mul_comm ((hexVal c).getD 0) (16 ^ cs.length), Nat.mul_add_mod,
        Nat.mod_eq_of_lt hv]
    simp only [valBE, List.length_cons, natBaseBE, hdiv, hmod,
      hexChar_hexVal_lower (h c (by simp)), ih (fun x hx => h x (by simp [hx]))]

/-- Value of a fixed-width hex rendering (inverse direction). -/
theorem valBE_natBaseBE (w n : Nat) (hn : n < 16 ^ w) :
    valBE 16 hexVal (natBaseBE 16 hexChar w n) = n := by
  induction w generalizing n with
  | zero =>
    have : n = 0 := by simpa using hn
    simp [this, natBaseBE, valBE]
  | succ w ih =>
    have hq : n / 16 ^ w < 16 := by
      rw [Nat.div_lt_iff_lt_mul (Nat.pos_pow_of_pos w (by norm_num))]
      have : (16 : Nat) ^ (w + 1) = 16 * 16 ^ w := by ring
      exact this ▸ hn
    have hr : n % 16 ^ w < 16 ^ w := Nat.mod_lt _ (Nat.pos_pow_of_pos w (by norm_num))
    simp only [natBaseBE, valBE, natBaseBE_length, hexVal_hexChar _ hq, Option.getD_some,
      ih _ hr]
    have h1 := Nat.div_add_mod n (16 ^ w)
    have h2 : 16 ^ w * (n / 16 ^ w) = n / 16 ^ w * 16 ^ w := Nat.mul_comm _ _
    omega

/-! ## Enumeration parse lemmas -/

theorem CaseImportState_value_mem : ∀ m : CaseImportState, CaseImportState.value m ∈ CaseImportState.values := by decide

theorem CaseImportState_parse_eq_none {s : String} (h : s ∉ CaseImportState.values) :
    CaseImportState.parse s = none := by
  have n1 : ¬(s = "draft") := fun hh => h (by rw [hh]; decide)
  have n2 : ¬(s = "submitted") := fun hh => h (by rw [hh]; decide)
  have n3 : ¬(s = "imported") := fun hh => h (by rw [hh]; decide)
  have n4 : ¬(s = "evicted") := fun hh => h (by rw [hh]; decide)
  have n5 : ¬(s = "failed") := fun hh => h (by rw [hh]; decide)
  unfold CaseImportState.parse
  rw [if_neg n1, if_neg n2, if_neg n3, if_neg n4, if_neg n5]

set_option maxHeartbeats 1000000 in
theorem CaseImportState_parse_some_iff (s : String) (m : CaseImportState) :
    CaseImportState.parse s = some m ↔ CaseImportState.value m = s := by
  by_cases hs : s ∈ CaseImportState.values
  · revert m
    fin_cases hs <;> decide
  · constructor
    · intro hp
      rw [CaseImportState_parse_eq_none hs] at hp
      cases hp
    · intro hv
      exact absurd (hv ▸ CaseImportState_value_mem m) hs

theorem VariantSetImportState_value_mem : ∀ m : VariantSetImportState, VariantSetImportState.value m ∈ VariantSetImportState.values := by decide

theorem VariantSetImportState_parse_eq_none {s : String} (h : s ∉ VariantSetImportState.values) :
    VariantSetImportState.parse s = none := by
  have n1 : ¬(s = "draft") := fun hh => h (by rw [hh]; decide)
  have n2 : ¬(s = "uploaded") := fun hh => h (by rw [hh]; decide)
  have n3 : ¬(s = "imported") := fun hh => h (by rw [hh]; decide)
  have n4 : ¬(s = "evicted") := fun hh => h (by rw [hh]; decide)
  have n5 : ¬(s = "failed") := fun hh => h (by rw [hh]; decide)
  unfold VariantSetImportState.parse
  rw [if_neg n1, if_neg n2, if_neg n3, if_neg n4, if_neg n5]

set_option maxHeartbeats 1000000 in
theorem VariantSetImportState_parse_some_iff (s : String) (m : VariantSetImportState) :
    VariantSetImportState.parse s = some m ↔ VariantSetImportState.value m = s := by
  by_cases hs : s ∈ VariantSetImportState.values
  · revert m
    fin_cases hs <;> decide
  · constructor
    · intro hp
      rw [VariantSetImportState_parse_eq_none hs] at hp
      cases hp
    · intro hv
      exact absurd (hv ▸ VariantSetImportState_value_mem m) hs

theorem GenomeBuild_value_mem : ∀ m : GenomeBuild, GenomeBuild.value m ∈ GenomeBuild.values := by decide

theorem GenomeBuild_parse_eq_none {s : String} (h : s ∉ GenomeBuild.values) :
    GenomeBuild.parse s = none := by
  have n1 : ¬(s = "GRCh37") := fun hh => h (by rw [hh]; decide)
  have n2 : ¬(s = "GRCh38") := fun hh => h (by rw [hh]; decide)
  unfold GenomeBuild.parse
  rw [if_neg n1, if_neg n2]

set_option maxHeartbeats 1000000 in
theorem GenomeBuild_parse_some_iff (s : String) (m : GenomeBuild) :
    GenomeBuild.parse s = some m ↔ GenomeBuild.value m = s := by
  by_cases hs : s ∈ GenomeBuild.values
  · revert m
    fin_cases hs <;> decide
  · constructor
    · intro hp
      rw [GenomeBuild_parse_eq_none hs] at hp
      cases hp
    · intro hv
      exact absurd (hv ▸ GenomeBuild_value_mem m) hs

theorem CaseVariantType_value_mem : ∀ m : CaseVariantType, CaseVariantType.value m ∈ CaseVariantType.values := by decide

theorem CaseVariantType_parse_eq_none {s : String} (h : s ∉ CaseVariantType.values) :
    CaseVariantType.parse s = none := by
  have n1 : ¬(s = "SMALL") := fun hh => h (by rw [hh]; decide)
  have n2 : ¬(s = "STRUCTURAL") := fun hh => h (by rw [hh]; decide)
  unfold CaseVariantType.parse
  rw [if_neg n1, if_neg n2]

set_option maxHeartbeats 1000000 in
theorem CaseVariantType_parse_some_iff (s : String) (m : CaseVariantType) :
    CaseVariantType.parse s = some m ↔ CaseVariantType.value m = s := by
  by_cases hs : s ∈ CaseVariantType.values
  · revert m
    fin_cases hs <;> decide
  · constructor
    · intro hp
      rw [CaseVariantType_parse_eq_none hs] at hp
      cases hp
    · intro hv
      exact absurd (hv ▸ CaseVariantType_value_mem m) hs

theorem EffectsV1_value_mem : ∀ m : EffectsV1, EffectsV1.value m ∈ EffectsV1.values := by decide

theorem EffectsV1_parse_eq_none {s : String} (h : s ∉ EffectsV1.values) :
    EffectsV1.parse s = none := by
  have n1 : ¬(s = "3_prime_UTR_exon_variant") := fun hh => h (by rw [hh]; decide)
  have n2 : ¬(s = "3_prime_UTR_intron_variant") := fun hh => h (by rw [hh]; decide)
  have n3 : ¬(s = "5_prime_UTR_exon_variant") := fun hh => h (by rw [hh]; decide)
  have n4 : ¬(s = "5_prime_UTR_intron_variant") := fun hh => h (by rw [hh]; decide)
  have n5 : ¬(s = "coding_transcript_intron_variant") := fun hh => h (by rw [hh]; decide)
  have n6 : ¬(s = "complex_substitution") := fun hh => h (by rw [hh]; decide)
  have n7 : ¬(s = "direct_tandem_duplication") := fun hh => h (by rw [hh]; decide)
  have n8 : ¬(s = "disruptive_inframe_deletion") := fun hh => h (by rw [hh]; decide)
  have n9 : ¬(s = "disruptive_inframe_insertion") := fun hh => h (by rw [hh]; decide)
  have n10 : ¬(s = "downstream_gene_variant") := fun hh => h (by rw [hh]; decide)
  have n11 : ¬(s = "exon_loss_variant") := fun hh => h (by rw [hh]; decide)
  have n12 : ¬(s = "feature_truncation") := fun hh => h (by rw [hh]; decide)
  have n13 : ¬(s = "frameshift_elongation") := fun hh => h (by rw [hh]; decide)
  have n14 : ¬(s = "frameshift_truncation") := fun hh => h (by rw [hh]; decide)
  have n15 : ¬(s = "frameshift_variant") := fun hh => h (by rw [hh]; decide)
  have n16 : ¬(s = "inframe_deletion") := fun hh => h (by rw [hh]; decide)
  have n17 : ¬(s = "inframe_insertion") := fun hh => h (by rw [hh]; decide)
  have n18 : ¬(s = "intergenic_variant") := fun hh => h (by rw [hh]; decide)
  have n19 : ¬(s = "internal_feature_elongation") := fun hh => h (by rw [hh]; decide)
  have n20 : ¬(s = "missense_variant") := fun hh => h (by rw [hh]; decide)
  have n21 : ¬(s = "mnv") := fun hh => h (by rw [hh]; decide)
  have n22 : ¬(s = "non_coding_transcript_exon_variant") := fun hh => h (by rw [hh]; decide)
  have n23 : ¬(s = "non_coding_transcript_intron_variant") := fun hh => h (by rw [hh]; decide)
  have n24 : ¬(s = "splice_acceptor_variant") := fun hh => h (by rw [hh]; decide)
  have n25 : ¬(s = "splice_donor_variant") := fun hh => h (by rw [hh]; decide)
  have n26 : ¬(s = "splice_region_variant") := fun hh => h (by rw [hh]; decide)
  have n27 : ¬(s = "start_lost") := fun hh => h (by rw [hh]; decide)
  have n28 : ¬(s = "stop_gained") := fun hh => h (by rw [hh]; decide)
  have n29 : ¬(s = "stop_lost") := fun hh => h (by rw [hh]; decide)
  have n30 : ¬(s = "stop_retained_variant") := fun hh => h (by rw [hh]; decide)
  have n31 : ¬(s = "structural_variant") := fun hh => h (by rw [hh]; decide)
  have n32 : ¬(s = "synonymous_variant") := fun hh => h (by rw [hh]; decide)
  have n33 : ¬(s = "transcript_ablation") := fun hh => h (by rw [hh]; decide)
  have n34 : ¬(s = "upstream_gene_variant") := fun hh => h (by rw [hh]; decide)
  unfold EffectsV1.parse
  rw [if_neg n1, if_neg n2, if_neg n3, if_neg n4, if_neg n5, if_neg n6, if_neg n7, if_neg n8, if_neg n9, if_neg n10, if_neg n11, if_neg n12, if_neg n13, if_neg n14, if_neg n15, if_neg n16, if_neg n17, if_neg n18, if_neg n19, if_neg n20, if_neg n21, if_neg n22, if_neg n23, if_neg n24, if_neg n25, if_neg n26, if_neg n27, if_neg n28, if_neg n29, if_neg n30, if_neg n31, if_neg n32, if_neg n33, if_neg n34]

set_option maxHeartbeats 1000000 in
theorem EffectsV1_parse_some_iff (s : String) (m : EffectsV1) :
    EffectsV1.parse s = some m ↔ EffectsV1.value m = s := by
  by_cases hs : s ∈ EffectsV1.values
  · revert m
    fin_cases hs <;> decide
  · constructor
    · intro hp
      rw [EffectsV1_parse_eq_none hs] at hp
      cases hp
    · intro hv
      exact absurd (hv ▸ EffectsV1_value_mem m) hs

theorem RecessiveModeV1_value_mem : ∀ m : RecessiveModeV1, RecessiveModeV1.value m ∈ RecessiveModeV1.values := by decide

theorem RecessiveModeV1_parse_eq_none {s : String} (h : s ∉ RecessiveModeV1.values) :
    RecessiveModeV1.parse s = none := by
  have n1 : ¬(s = "recessive") := fun hh => h (by rw [hh]; decide)
  have n2 : ¬(s = "compound-recessive") := fun hh => h (by rw [hh]; decide)
  unfold RecessiveModeV1.parse
  rw [if_neg n1, if_neg n2]

set_option maxHeartbeats 1000000 in
theorem RecessiveModeV1_parse_some_iff (s : String) (m : RecessiveModeV1) :
    RecessiveModeV1.parse s = some m ↔ RecessiveModeV1.value m = s := by
  by_cases hs : s ∈ RecessiveModeV1.values
  · revert m
    fin_cases hs <;> decide
  · constructor
    · intro hp
      rw [RecessiveModeV1_parse_eq_none hs] at hp
      cases hp
    · intro hv
      exact absurd (hv ▸ RecessiveModeV1_value_mem m) hs

theorem FailChoiceV1_value_mem : ∀ m : FailChoiceV1, FailChoiceV1.value m ∈ FailChoiceV1.values := by decide

theorem FailChoiceV1_parse_eq_none {s : String} (h : s ∉ FailChoiceV1.values) :
    FailChoiceV1.parse s = none := by
  have n1 : ¬(s = "ignore") := fun hh => h (by rw [hh]; decide)
  have n2 : ¬(s = "drop-variant") := fun hh => h (by rw [hh]; decide)
  have n3 : ¬(s = "no-call") := fun hh => h (by rw [hh]; decide)
  unfold FailChoiceV1.parse
  rw [if_neg n1, if_neg n2, if_neg n3]

set_option maxHeartbeats 1000000 in
theorem FailChoiceV1_parse_some_iff (s : String) (m : FailChoiceV1) :
    FailChoiceV1.parse s = some m ↔ FailChoiceV1.value m = s := by
  by_cases hs : s ∈ FailChoiceV1.values
  · revert m
    fin_cases hs <;> decide
  · constructor
    · intro hp
      rw [FailChoiceV1_parse_eq_none hs] at hp
      cases hp
    · intro hv
      exact absurd (hv ▸ FailChoiceV1_value_mem m) hs

theorem GenotypeChoiceV1_value_mem : ∀ m : GenotypeChoiceV1, GenotypeChoiceV1.value m ∈ GenotypeChoiceV1.values := by decide

theorem GenotypeChoiceV1_parse_eq_none {s : String} (h : s ∉ GenotypeChoiceV1.values) :
    GenotypeChoiceV1.parse s = none := by
  have n1 : ¬(s = "any") := fun hh => h (by rw [hh]; decide)
  have n2 : ¬(s = "ref") := fun hh => h (by rw [hh]; decide)
  have n3 : ¬(s = "het") := fun hh => h (by rw [hh]; decide)
  have n4 : ¬(s = "hom") := fun hh => h (by rw [hh]; decide)
  have n5 : ¬(s = "non-hom") := fun hh => h (by rw [hh]; decide)
  have n6 : ¬(s = "reference") := fun hh => h (by rw [hh]; decide)
  have n7 : ¬(s = "variant") := fun hh => h (by rw [hh]; decide)
  have n8 : ¬(s = "non-variant") := fun hh => h (by rw [hh]; decide)
  have n9 : ¬(s = "non-reference") := fun hh => h (by rw [hh]; decide)
  unfold GenotypeChoiceV1.parse
  rw [if_neg n1, if_neg n2, if_neg n3, if_neg n4, if_neg n5, if_neg n6, if_neg n7, if_neg n8, if_neg n9]

set_option maxHeartbeats 1000000 in
theorem GenotypeChoiceV1_parse_some_iff (s : String) (m : GenotypeChoiceV1) :
    GenotypeChoiceV1.parse s = some m ↔ GenotypeChoiceV1.value m = s := by
  by_cases hs : s ∈ GenotypeChoiceV1.values
  · revert m
    fin_cases hs <;> decide
  · constructor
    · intro hp
      rw [GenotypeChoiceV1_parse_eq_none hs] at hp
      cases hp
    · intro hv
      exact absurd (hv ▸ GenotypeChoiceV1_value_mem m) hs

/-! ## Claim theorems (part 1) -/

/-- C3: for every string-backed enumeration of `models.py` and every
string `s`, by-value lookup succeeds and returns the unique member whose
value is `s` exactly when `s` is a declared member value, and fails
(returns `none`, modelling the raised `ValueError`) when `s` is not among
the declared member values. -/
theorem enum_parse_by_value_spec :
    (∀ s m, CaseImportState.parse s = some m ↔ CaseImportState.value m = s) ∧
    (∀ s ∉ CaseImportState.values, CaseImportState.parse s = none) ∧
    (∀ s m, VariantSetImportState.parse s = some m ↔ VariantSetImportState.value m = s) ∧
    (∀ s ∉ VariantSetImportState.values, VariantSetImportState.parse s = none) ∧
    (∀ s m, GenomeBuild.parse s = some m ↔ GenomeBuild.value m = s) ∧
    (∀ s ∉ GenomeBuild.values, GenomeBuild.parse s = none) ∧
    (∀ s m, CaseVariantType.parse s = some m ↔ CaseVariantType.value m = s) ∧
    (∀ s ∉ CaseVariantType.values, CaseVariantType.parse s = none) ∧
    (∀ s m, EffectsV1.parse s = some m ↔ EffectsV1.value m = s) ∧
    (∀ s ∉ EffectsV1.values, EffectsV1.parse s = none) ∧
    (∀ s m, RecessiveModeV1.parse s = some m ↔ RecessiveModeV1.value m = s) ∧
    (∀ s ∉ RecessiveModeV1.values, RecessiveModeV1.parse s = none) ∧
    (∀ s m, FailChoiceV1.parse s = some m ↔ FailChoiceV1.value m = s) ∧
    (∀ s ∉ FailChoiceV1.values, FailChoiceV1.parse s = none) ∧
    (∀ s m, GenotypeChoiceV1.parse s = some m ↔ GenotypeChoiceV1.value m = s) ∧
    (∀ s ∉ GenotypeChoiceV1.values, GenotypeChoiceV1.parse s = none) :=
  ⟨CaseImportState_parse_some_iff, fun _ h => CaseImportState_parse_eq_none h,
   VariantSetImportState_parse_some_iff, fun _ h => VariantSetImportState_parse_eq_none h,
   GenomeBuild_parse_some_iff, fun _ h => GenomeBuild_parse_eq_none h,
   CaseVariantType_parse_some_iff, fun _ h => CaseVariantType_parse_eq_none h,
   EffectsV1_parse_some_iff, fun _ h => EffectsV1_parse_eq_none h,
   RecessiveModeV1_parse_some_iff, fun _ h => RecessiveModeV1_parse_eq_none h,
   FailChoiceV1_parse_some_iff, fun _ h => FailChoiceV1_parse_eq_none h,
   GenotypeChoiceV1_parse_some_iff, fun _ h => GenotypeChoiceV1_parse_eq_none h⟩

/-- Witness for C3 at concrete inputs: a declared value parses to its
member, an undeclared value is rejected. -/
theorem enum_parse_by_value_spec_witness :
    CaseImportState.parse "draft" = some CaseImportState.DRAFT ∧
    CaseImportState.parse "bogus" = none :=
  ⟨(enum_parse_by_value_spec.1 "draft" CaseImportState.DRAFT).2 rfl,
   enum_parse_by_value_spec.2.1 "bogus" (by decide)⟩

/-- C6: every record class of the data model is declared `frozen=True`,
so attrs attribute assignment on any instance raises
`FrozenInstanceError` (no operation of the embedding mutates a value). -/
theorem record_classes_frozen :
    recordClassDecls.all
      (fun d => d.frozen && decide (attrsSetattr d.frozen = SetattrResult.frozenError)) = true := by
  decide

/-- C9: `convert_genomic_region_v1` is total and returns
`(chromosome, start, end)` when the range is present and
`(chromosome, None, None)` when it is absent. -/
theorem convert_genomic_region_v1_spec (r : GenomicRegionV1) :
    (∀ rg : RangeV1, r.range = some rg →
      convert_genomic_region_v1 r = (r.chromosome, some rg.start, some rg.«end»)) ∧
    (r.range = none → convert_genomic_region_v1 r = (r.chromosome, none, none)) := by
  constructor
  · intro rg h
    simp [convert_genomic_region_v1, h]
  · intro h
    simp [convert_genomic_region_v1, h]

/-- Witness for C9 at concrete regions with and without a range. -/
theorem convert_genomic_region_v1_spec_witness :
    convert_genomic_region_v1 ⟨"chr1", some ⟨100, 200⟩⟩ = ("chr1", some 100, some 200) ∧
    convert_genomic_region_v1 ⟨"chrX", none⟩ = ("chrX", none, none) :=
  ⟨(convert_genomic_region_v1_spec ⟨"chr1", some ⟨100, 200⟩⟩).1 ⟨100, 200⟩ rfl,
   (convert_genomic_region_v1_spec ⟨"chrX", none⟩).2 rfl⟩

/-- C7: both query commands write the response as a JSON passthrough --
the two-space-indented serialization of the response value, unchanged --
preceded exactly by the underlined title and a blank line. -/
theorem query_commands_json_passthrough (res : JValue) :
    outputOf (small_var_query_status_ops res)
      = "Query Status\n============\n\n" ++ dumpJValue res 0 ++ "\n" ∧
    outputOf (small_var_query_fetch_results_ops res)
      = "Query Results\n=============\n\n" ++ dumpJValue res 0 := by
  constructor <;>
    simp [small_var_query_status_ops, small_var_query_fetch_results_ops, outputOf,
      ← String.append_assoc]

/-- C10: the two query commands differ in output termination: the status
command writes a trailing newline after the JSON body and flushes the
stream, while the fetch-results command writes nothing after the JSON
body and never flushes. -/
theorem query_commands_termination_difference (res : JValue) :
    FileOp.flush ∈ small_var_query_status_ops res ∧
    FileOp.flush ∉ small_var_query_fetch_results_ops res ∧
    outputOf (small_var_query_status_ops res)
      = "Query Status\n============\n\n" ++ dumpJValue res 0 ++ "\n" ∧
    outputOf (small_var_query_fetch_results_ops res)
      = "Query Results\n=============\n\n" ++ dumpJValue res 0 := by
  refine ⟨?_, ?_, ?_, ?_⟩ <;>
    simp [small_var_query_status_ops, small_var_query_fetch_results_ops, outputOf,
      ← String.append_assoc]

/-- C8: the header used by `varannosetentry-list` is the configured
`output_fields` when set and non-empty; otherwise the fixed nine-field
tuple for TABLE output, and the full ordered field list of
`VarAnnoSetEntryV1` for CSV and JSON output. -/
theorem varannosetentry_list_header_spec (u : Option (List String))
    (fmt : OutputFormat) (allFields : List String) :
    (∀ l, u = some l → l ≠ [] → varannosetentry_list_header u fmt allFields = l) ∧
    ((u = none ∨ u = some []) →
      varannosetentry_list_header u fmt allFields =
        match fmt with
        | .table => ["sodar_uuid", "date_modified", "varannoset", "release", "chromosome",
            "start", "reference", "alternative", "payload"]
        | .csv => allFields
        | .json => allFields) := by
  constructor
  · intro l hu hl
    subst hu
    simp [varannosetentry_list_header, pyOrFields, List.isEmpty_iff, hl]
  · rintro (rfl | rfl) <;> cases fmt <;>
      simp [varannosetentry_list_header, pyOrFields, DEFAULT_FIELDS]

/-- Witness for C8: explicit fields win; otherwise TABLE gets the fixed
tuple and JSON gets the full field list. -/
theorem varannosetentry_list_header_spec_witness :
    varannosetentry_list_header (some ["a"]) OutputFormat.csv ["x", "y"] = ["a"] ∧
    varannosetentry_list_header none OutputFormat.table ["x", "y"]
      = ["sodar_uuid", "date_modified", "varannoset", "release", "chromosome",
          "start", "reference", "alternative", "payload"] ∧
    varannosetentry_list_header (some []) OutputFormat.json ["x", "y"] = ["x", "y"] :=
  ⟨(varannosetentry_list_header_spec (some ["a"]) OutputFormat.csv ["x", "y"]).1
      ["a"] rfl (by decide),
   (varannosetentry_list_header_spec none OutputFormat.table ["x", "y"]).2 (Or.inl rfl),
   (varannosetentry_list_header_spec (some []) OutputFormat.json ["x", "y"]).2 (Or.inr rfl)⟩

/-- C2 counterexample: in `Case` the `Optional`-typed fields
`num_small_vars` and `num_svs` carry no default, so an instance cannot be
constructed supplying only the non-`Optional` fields -- the claim that
every record type can be so constructed (with every optional field then
absent) is false at `Case`. -/
theorem case_optional_fields_not_defaulted :
    ¬ ∀ f ∈ caseFieldDecls, f.optionalType = true → f.hasDefault = true := by
  decide

/-- C2 (amended): in every record type, every `Optional`-typed field that
carries a default defaults to `None`; constructing each type supplying
only the fields without defaults leaves all its defaulted
`Optional`-typed fields absent.  (`Case.num_small_vars`, `Case.num_svs`
and `CaseQueryV1.name` are `Optional`-typed yet required.) -/
theorem optional_defaults_are_none :
    (∀ (g : GenomeBuild) (n i : String) (p : List PedigreeMember),
      (({ release := g, name := n, index := i, pedigree := p } : CaseImportInfo).sodar_uuid
          = none ∧
        ({ release := g, name := n, index := i, pedigree := p } : CaseImportInfo).owner = none ∧
        ({ release := g, name := n, index := i, pedigree := p }
            : CaseImportInfo).date_created = none ∧
        ({ release := g, name := n, index := i, pedigree := p }
            : CaseImportInfo).date_modified = none ∧
        ({ release := g, name := n, index := i, pedigree := p } : CaseImportInfo).project
          = none ∧
        ({ release := g, name := n, index := i, pedigree := p } : CaseImportInfo).«case»
          = none ∧
        ({ release := g, name := n, index := i, pedigree := p } : CaseImportInfo).notes
          = none)) ∧
    (∀ (gb : GenomeBuild) (vt : CaseVariantType),
      (({ genomebuild := gb, variant_type := vt } : VariantSetImportInfo).sodar_uuid = none ∧
        ({ genomebuild := gb, variant_type := vt } : VariantSetImportInfo).date_created
          = none ∧
        ({ genomebuild := gb, variant_type := vt } : VariantSetImportInfo).date_modified
          = none ∧
        ({ genomebuild := gb, variant_type := vt } : VariantSetImportInfo).case_import_info
          = none)) ∧
    (∀ (n m5 : String),
      (({ name := n, md5 := m5 } : BamQcFile).sodar_uuid = none ∧
        ({ name := n, md5 := m5 } : BamQcFile).date_created = none ∧
        ({ name := n, md5 := m5 } : BamQcFile).date_modified = none ∧
        ({ name := n, md5 := m5 } : BamQcFile).case_import_info = none)) ∧
    (∀ (n m5 : String),
      (({ name := n, md5 := m5 } : GenotypeFile).sodar_uuid = none ∧
        ({ name := n, md5 := m5 } : GenotypeFile).date_created = none ∧
        ({ name := n, md5 := m5 } : GenotypeFile).date_modified = none ∧
        ({ name := n, md5 := m5 } : GenotypeFile).case_import_info = none)) ∧
    (∀ (n m5 : String),
      (({ name := n, md5 := m5 } : EffectsFile).sodar_uuid = none ∧
        ({ name := n, md5 := m5 } : EffectsFile).date_created = none ∧
        ({ name := n, md5 := m5 } : EffectsFile).date_modified = none ∧
        ({ name := n, md5 := m5 } : EffectsFile).case_import_info = none)) ∧
    (∀ (n m5 : String),
      (({ name := n, md5 := m5 } : DatabaseInfoFile).sodar_uuid = none ∧
        ({ name := n, md5 := m5 } : DatabaseInfoFile).date_created = none ∧
        ({ name := n, md5 := m5 } : DatabaseInfoFile).date_modified = none ∧
        ({ name := n, md5 := m5 } : DatabaseInfoFile).case_import_info = none)) ∧
    (({} : QualitySettingsV1).dp_het = none ∧
      ({} : QualitySettingsV1).dp_hom = none ∧
      ({} : QualitySettingsV1).number = none ∧
      ({} : QualitySettingsV1).gq = none ∧
      ({} : QualitySettingsV1).ab = none ∧
      ({} : QualitySettingsV1).ad = none ∧
      ({} : QualitySettingsV1).ad_max = none) ∧
    (∀ (db : String) (ef : List EffectsV1) (b1 b2 b3 b4 b5 b6 b7 b8 : Bool)
        (q : List (String × QualitySettingsV1)) (gt : List (String × GenotypeChoiceV1)),
      (({ database := db, effects := ef, exac_enabled := b1, gnomad_exomes_enabled := b2, gnomad_genomes_enabled := b3, thousand_genomes_enabled := b4, inhouse_enabled := b5, mtdb_enabled := b6, helixmtdb_enabled := b7, mitomap_enabled := b8, quality := q, genotype := gt } : CaseQuerySettingsV1).max_exon_dist = none) ∧
        (({ database := db, effects := ef, exac_enabled := b1, gnomad_exomes_enabled := b2, gnomad_genomes_enabled := b3, thousand_genomes_enabled := b4, inhouse_enabled := b5, mtdb_enabled := b6, helixmtdb_enabled := b7, mitomap_enabled := b8, quality := q, genotype := gt } : CaseQuerySettingsV1).gene_allowlist = none) ∧
        (({ database := db, effects := ef, exac_enabled := b1, gnomad_exomes_enabled := b2, gnomad_genomes_enabled := b3, thousand_genomes_enabled := b4, inhouse_enabled := b5, mtdb_enabled := b6, helixmtdb_enabled := b7, mitomap_enabled := b8, quality := q, genotype := gt } : CaseQuerySettingsV1).gene_blocklist = none) ∧
        (({ database := db, effects := ef, exac_enabled := b1, gnomad_exomes_enabled := b2, gnomad_genomes_enabled := b3, thousand_genomes_enabled := b4, inhouse_enabled := b5, mtdb_enabled := b6, helixmtdb_enabled := b7, mitomap_enabled := b8, quality := q, genotype := gt } : CaseQuerySettingsV1).genomic_region = none) ∧
        (({ database := db, effects := ef, exac_enabled := b1, gnomad_exomes_enabled := b2, gnomad_genomes_enabled := b3, thousand_genomes_enabled := b4, inhouse_enabled := b5, mtdb_enabled := b6, helixmtdb_enabled := b7, mitomap_enabled := b8, quality := q, genotype := gt } : CaseQuerySettingsV1).patho_score = none) ∧
        (({ database := db, effects := ef, exac_enabled := b1, gnomad_exomes_enabled := b2, gnomad_genomes_enabled := b3, thousand_genomes_enabled := b4, inhouse_enabled := b5, mtdb_enabled := b6, helixmtdb_enabled := b7, mitomap_enabled := b8, quality := q, genotype := gt } : CaseQuerySettingsV1).prio_algorithm = none) ∧
        (({ database := db, effects := ef, exac_enabled := b1, gnomad_exomes_enabled := b2, gnomad_genomes_enabled := b3, thousand_genomes_enabled := b4, inhouse_enabled := b5, mtdb_enabled := b6, helixmtdb_enabled := b7, mitomap_enabled := b8, quality := q, genotype := gt } : CaseQuerySettingsV1).prio_hpo_terms = none) ∧
        (({ database := db, effects := ef, exac_enabled := b1, gnomad_exomes_enabled := b2, gnomad_genomes_enabled := b3, thousand_genomes_enabled := b4, inhouse_enabled := b5, mtdb_enabled := b6, helixmtdb_enabled := b7, mitomap_enabled := b8, quality := q, genotype := gt } : CaseQuerySettingsV1).recessive_mode = none) ∧
        (({ database := db, effects := ef, exac_enabled := b1, gnomad_exomes_enabled := b2, gnomad_genomes_enabled := b3, thousand_genomes_enabled := b4, inhouse_enabled := b5, mtdb_enabled := b6, helixmtdb_enabled := b7, mitomap_enabled := b8, quality := q, genotype := gt } : CaseQuerySettingsV1).recessive_index = none) ∧
        (({ database := db, effects := ef, exac_enabled := b1, gnomad_exomes_enabled := b2, gnomad_genomes_enabled := b3, thousand_genomes_enabled := b4, inhouse_enabled := b5, mtdb_enabled := b6, helixmtdb_enabled := b7, mitomap_enabled := b8, quality := q, genotype := gt } : CaseQuerySettingsV1).denovo_index = none) ∧
        (({ database := db, effects := ef, exac_enabled := b1, gnomad_exomes_enabled := b2, gnomad_genomes_enabled := b3, thousand_genomes_enabled := b4, inhouse_enabled := b5, mtdb_enabled := b6, helixmtdb_enabled := b7, mitomap_enabled := b8, quality := q, genotype := gt } : CaseQuerySettingsV1).exac_frequency = none) ∧
        (({ database := db, effects := ef, exac_enabled := b1, gnomad_exomes_enabled := b2, gnomad_genomes_enabled := b3, thousand_genomes_enabled := b4, inhouse_enabled := b5, mtdb_enabled := b6, helixmtdb_enabled := b7, mitomap_enabled := b8, quality := q, genotype := gt } : CaseQuerySettingsV1).exac_heterozygous = none) ∧
        (({ database := db, effects := ef, exac_enabled := b1, gnomad_exomes_enabled := b2, gnomad_genomes_enabled := b3, thousand_genomes_enabled := b4, inhouse_enabled := b5, mtdb_enabled := b6, helixmtdb_enabled := b7, mitomap_enabled := b8, quality := q, genotype := gt } : CaseQuerySettingsV1).exac_homozygous = none) ∧
        (({ database := db, effects := ef, exac_enabled := b1, gnomad_exomes_enabled := b2, gnomad_genomes_enabled := b3, thousand_genomes_enabled := b4, inhouse_enabled := b5, mtdb_enabled := b6, helixmtdb_enabled := b7, mitomap_enabled := b8, quality := q, genotype := gt } : CaseQuerySettingsV1).exac_hemizygous = none) ∧
        (({ database := db, effects := ef, exac_enabled := b1, gnomad_exomes_enabled := b2, gnomad_genomes_enabled := b3, thousand_genomes_enabled := b4, inhouse_enabled := b5, mtdb_enabled := b6, helixmtdb_enabled := b7, mitomap_enabled := b8, quality := q, genotype := gt } : CaseQuerySettingsV1).gnomad_exomes_frequency = none) ∧
        (({ database := db, effects := ef, exac_enabled := b1, gnomad_exomes_enabled := b2, gnomad_genomes_enabled := b3, thousand_genomes_enabled := b4, inhouse_enabled := b5, mtdb_enabled := b6, helixmtdb_enabled := b7, mitomap_enabled := b8, quality := q, genotype := gt } : CaseQuerySettingsV1).gnomad_exomes_heterozygous = none) ∧
        (({ database := db, effects := ef, exac_enabled := b1, gnomad_exomes_enabled := b2, gnomad_genomes_enabled := b3, thousand_genomes_enabled := b4, inhouse_enabled := b5, mtdb_enabled := b6, helixmtdb_enabled := b7, mitomap_enabled := b8, quality := q, genotype := gt } : CaseQuerySettingsV1).gnomad_exomes_homozygous = none) ∧
        (({ database := db, effects := ef, exac_enabled := b1, gnomad_exomes_enabled := b2, gnomad_genomes_enabled := b3, thousand_genomes_enabled := b4, inhouse_enabled := b5, mtdb_enabled := b6, helixmtdb_enabled := b7, mitomap_enabled := b8, quality := q, genotype := gt } : CaseQuerySettingsV1).gnomad_exomes_hemizygous = none) ∧
        (({ database := db, effects := ef, exac_enabled := b1, gnomad_exomes_enabled := b2, gnomad_genomes_enabled := b3, thousand_genomes_enabled := b4, inhouse_enabled := b5, mtdb_enabled := b6, helixmtdb_enabled := b7, mitomap_enabled := b8, quality := q, genotype := gt } : CaseQuerySettingsV1).gnomad_genomes_frequency = none) ∧
        (({ database := db, effects := ef, exac_enabled := b1, gnomad_exomes_enabled := b2, gnomad_genomes_enabled := b3, thousand_genomes_enabled := b4, inhouse_enabled := b5, mtdb_enabled := b6, helixmtdb_enabled := b7, mitomap_enabled := b8, quality := q, genotype := gt } : CaseQuerySettingsV1).gnomad_genomes_heterozygous = none) ∧
        (({ database := db, effects := ef, exac_enabled := b1, gnomad_exomes_enabled := b2, gnomad_genomes_enabled := b3, thousand_genomes_enabled := b4, inhouse_enabled := b5, mtdb_enabled := b6, helixmtdb_enabled := b7, mitomap_enabled := b8, quality := q, genotype := gt } : CaseQuerySettingsV1).gnomad_genomes_homozygous = none) ∧
        (({ database := db, effects := ef, exac_enabled := b1, gnomad_exomes_enabled := b2, gnomad_genomes_enabled := b3, thousand_genomes_enabled := b4, inhouse_enabled := b5, mtdb_enabled := b6, helixmtdb_enabled := b7, mitomap_enabled := b8, quality := q, genotype := gt } : CaseQuerySettingsV1).gnomad_genomes_hemizygous = none) ∧
        (({ database := db, effects := ef, exac_enabled := b1, gnomad_exomes_enabled := b2, gnomad_genomes_enabled := b3, thousand_genomes_enabled := b4, inhouse_enabled := b5, mtdb_enabled := b6, helixmtdb_enabled := b7, mitomap_enabled := b8, quality := q, genotype := gt } : CaseQuerySettingsV1).thousand_genomes_frequency = none) ∧
        (({ database := db, effects := ef, exac_enabled := b1, gnomad_exomes_enabled := b2, gnomad_genomes_enabled := b3, thousand_genomes_enabled := b4, inhouse_enabled := b5, mtdb_enabled := b6, helixmtdb_enabled := b7, mitomap_enabled := b8, quality := q, genotype := gt } : CaseQuerySettingsV1).thousand_genomes_heterozygous = none) ∧
        (({ database := db, effects := ef, exac_enabled := b1, gnomad_exomes_enabled := b2, gnomad_genomes_enabled := b3, thousand_genomes_enabled := b4, inhouse_enabled := b5, mtdb_enabled := b6, helixmtdb_enabled := b7, mitomap_enabled := b8, quality := q, genotype := gt } : CaseQuerySettingsV1).thousand_genomes_homozygous = none) ∧
        (({ database := db, effects := ef, exac_enabled := b1, gnomad_exomes_enabled := b2, gnomad_genomes_enabled := b3, thousand_genomes_enabled := b4, inhouse_enabled := b5, mtdb_enabled := b6, helixmtdb_enabled := b7, mitomap_enabled := b8, quality := q, genotype := gt } : CaseQuerySettingsV1).thousand_genomes_hemizygous = none) ∧
        (({ database := db, effects := ef, exac_enabled := b1, gnomad_exomes_enabled := b2, gnomad_genomes_enabled := b3, thousand_genomes_enabled := b4, inhouse_enabled := b5, mtdb_enabled := b6, helixmtdb_enabled := b7, mitomap_enabled := b8, quality := q, genotype := gt } : CaseQuerySettingsV1).inhouse_carriers = none) ∧
        (({ database := db, effects := ef, exac_enabled := b1, gnomad_exomes_enabled := b2, gnomad_genomes_enabled := b3, thousand_genomes_enabled := b4, inhouse_enabled := b5, mtdb_enabled := b6, helixmtdb_enabled := b7, mitomap_enabled := b8, quality := q, genotype := gt } : CaseQuerySettingsV1).inhouse_heterozygous = none) ∧
        (({ database := db, effects := ef, exac_enabled := b1, gnomad_exomes_enabled := b2, gnomad_genomes_enabled := b3, thousand_genomes_enabled := b4, inhouse_enabled := b5, mtdb_enabled := b6, helixmtdb_enabled := b7, mitomap_enabled := b8, quality := q, genotype := gt } : CaseQuerySettingsV1).inhouse_homozygous = none) ∧
        (({ database := db, effects := ef, exac_enabled := b1, gnomad_exomes_enabled := b2, gnomad_genomes_enabled := b3, thousand_genomes_enabled := b4, inhouse_enabled := b5, mtdb_enabled := b6, helixmtdb_enabled := b7, mitomap_enabled := b8, quality := q, genotype := gt } : CaseQuerySettingsV1).inhouse_hemizygous = none) ∧
        (({ database := db, effects := ef, exac_enabled := b1, gnomad_exomes_enabled := b2, gnomad_genomes_enabled := b3, thousand_genomes_enabled := b4, inhouse_enabled := b5, mtdb_enabled := b6, helixmtdb_enabled := b7, mitomap_enabled := b8, quality := q, genotype := gt } : CaseQuerySettingsV1).mtdb_count = none) ∧
        (({ database := db, effects := ef, exac_enabled := b1, gnomad_exomes_enabled := b2, gnomad_genomes_enabled := b3, thousand_genomes_enabled := b4, inhouse_enabled := b5, mtdb_enabled := b6, helixmtdb_enabled := b7, mitomap_enabled := b8, quality := q, genotype := gt } : CaseQuerySettingsV1).mtdb_frequency = none) ∧
        (({ database := db, effects := ef, exac_enabled := b1, gnomad_exomes_enabled := b2, gnomad_genomes_enabled := b3, thousand_genomes_enabled := b4, inhouse_enabled := b5, mtdb_enabled := b6, helixmtdb_enabled := b7, mitomap_enabled := b8, quality := q, genotype := gt } : CaseQuerySettingsV1).helixmtdb_frequency = none) ∧
        (({ database := db, effects := ef, exac_enabled := b1, gnomad_exomes_enabled := b2, gnomad_genomes_enabled := b3, thousand_genomes_enabled := b4, inhouse_enabled := b5, mtdb_enabled := b6, helixmtdb_enabled := b7, mitomap_enabled := b8, quality := q, genotype := gt } : CaseQuerySettingsV1).helixmtdb_het_count = none) ∧
        (({ database := db, effects := ef, exac_enabled := b1, gnomad_exomes_enabled := b2, gnomad_genomes_enabled := b3, thousand_genomes_enabled := b4, inhouse_enabled := b5, mtdb_enabled := b6, helixmtdb_enabled := b7, mitomap_enabled := b8, quality := q, genotype := gt } : CaseQuerySettingsV1).helixmtdb_hom_count = none) ∧
        (({ database := db, effects := ef, exac_enabled := b1, gnomad_exomes_enabled := b2, gnomad_genomes_enabled := b3, thousand_genomes_enabled := b4, inhouse_enabled := b5, mtdb_enabled := b6, helixmtdb_enabled := b7, mitomap_enabled := b8, quality := q, genotype := gt } : CaseQuerySettingsV1).mitomap_count = none) ∧
        (({ database := db, effects := ef, exac_enabled := b1, gnomad_exomes_enabled := b2, gnomad_genomes_enabled := b3, thousand_genomes_enabled := b4, inhouse_enabled := b5, mtdb_enabled := b6, helixmtdb_enabled := b7, mitomap_enabled := b8, quality := q, genotype := gt } : CaseQuerySettingsV1).mitmomap_frequency = none)) ∧
    (∀ nm : Option String,
      ({ name := nm } : CaseQueryV1).query_settings = none) ∧
    ((⟨"num_small_vars", true, false⟩ : FieldDecl) ∈ caseFieldDecls ∧
      (⟨"num_svs", true, false⟩ : FieldDecl) ∈ caseFieldDecls ∧
      (⟨"name", true, false⟩ : FieldDecl) ∈ caseQueryV1FieldDecls) := by
  refine ⟨?_, ?_, ?_, ?_, ?_, ?_, ?_, ?_, ?_, ?_⟩
  · intro g n i p
    exact ⟨rfl, rfl, rfl, rfl, rfl, rfl, rfl⟩
  · intro gb vt
    exact ⟨rfl, rfl, rfl, rfl⟩
  · intro n m5
    exact ⟨rfl, rfl, rfl, rfl⟩
  · intro n m5
    exact ⟨rfl, rfl, rfl, rfl⟩
  · intro n m5
    exact ⟨rfl, rfl, rfl, rfl⟩
  · intro n m5
    exact ⟨rfl, rfl, rfl, rfl⟩
  · exact ⟨rfl, rfl, rfl, rfl, rfl, rfl, rfl⟩
  · intro db ef b1 b2 b3 b4 b5 b6 b7 b8 q gt
    exact ⟨rfl, rfl, rfl, rfl, rfl, rfl, rfl, rfl, rfl, rfl, rfl, rfl, rfl, rfl, rfl, rfl, rfl, rfl, rfl, rfl, rfl, rfl, rfl, rfl, rfl, rfl, rfl, rfl, rfl, rfl, rfl, rfl, rfl, rfl, rfl, rfl, rfl⟩
  · intro nm
    rfl
  · decide


/-! ## Calendar lemmas -/

theorem daysInYear_pos (y : Nat) : 0 < daysInYear y := by
  unfold daysInYear
  split <;> norm_num

theorem daysInYear_ge (y : Nat) : 365 ≤ daysInYear y := by
  unfold daysInYear
  split <;> norm_num

theorem daysInMonth_le_31 (y m : Nat) : daysInMonth y m ≤ 31 := by
  unfold daysInMonth
  split <;> (try split) <;> norm_num

theorem daysBeforeMonth_succ (y m : Nat) :
    daysBeforeMonth y (m + 1) = daysBeforeMonth y m + daysInMonth y m := rfl

theorem daysBeforeMonth_one (y : Nat) : daysBeforeMonth y 1 = 0 := rfl

theorem daysBeforeMonth_13 (y : Nat) : daysBeforeMonth y 13 = daysInYear y := by
  by_cases h : isLeap y <;>
    simp [daysBeforeMonth, daysInMonth, daysInYear, h]

set_option maxHeartbeats 1000000 in
theorem daysBeforeYear_succ (y : Nat) (hy : 1 ≤ y) :
    daysBeforeYear (y + 1) = daysBeforeYear y + daysInYear y := by
  unfold daysBeforeYear daysInYear
  by_cases h : isLeap y
  · rw [if_pos h]
    unfold isLeap at h
    rw [decide_eq_true_eq] at h
    omega
  · rw [if_neg h]
    unfold isLeap at h
    rw [decide_eq_true_eq] at h
    omega

theorem daysBeforeYear_10000 : daysBeforeYear 10000 = 3652059 := by decide

theorem daysBeforeYear_ge_10000 (y : Nat) (hy : 10000 ≤ y) :
    3652059 ≤ daysBeforeYear y := by
  unfold daysBeforeYear
  omega

theorem monthFromDays_spec (y : Nat) :
    ∀ fuel m n m1 d, 1 ≤ m → m + fuel = 12 → 1 ≤ n →
      daysBeforeMonth y m + n ≤ daysBeforeMonth y 13 →
      monthFromDays y fuel m n = (m1, d) →
      daysBeforeMonth y m1 + d = daysBeforeMonth y m + n ∧
        1 ≤ d ∧ d ≤ daysInMonth y m1 ∧ 1 ≤ m1 ∧ m1 ≤ 12 := by
  intro fuel
  induction fuel with
  | zero =>
    intro m n m1 d hm hm12 hn hub heq
    have hm' : m = 12 := by omega
    subst hm'
    have hd : n ≤ daysInMonth y 12 := by
      have h13 : daysBeforeMonth y 13 = daysBeforeMonth y 12 + daysInMonth y 12 :=
        daysBeforeMonth_succ y 12
      omega
    simp only [monthFromDays, Prod.mk.injEq] at heq
    obtain ⟨rfl, rfl⟩ := heq
    exact ⟨rfl, hn, hd, by norm_num, le_refl 12⟩
  | succ fuel ih =>
    intro m n m1 d hm hm12 hn hub heq
    simp only [monthFromDays] at heq
    split_ifs at heq with hlt
    · have hs : daysBeforeMonth y (m + 1) = daysBeforeMonth y m + daysInMonth y m :=
        daysBeforeMonth_succ y m
      have := ih (m + 1) (n - daysInMonth y m) m1 d (by omega) (by omega) (by omega)
        (by omega) heq
      refine ⟨by omega, this.2⟩
    · simp only [Prod.mk.injEq] at heq
      obtain ⟨rfl, rfl⟩ := heq
      exact ⟨rfl, hn, by omega, hm, by omega⟩

theorem yearFromDays_spec :
    ∀ fuel y n y1 n1, 1 ≤ y → 1 ≤ n →
      daysBeforeYear y + n ≤ daysBeforeYear (y + fuel) + daysInYear (y + fuel) →
      yearFromDays fuel y n = (y1, n1) →
      daysBeforeYear y1 + n1 = daysBeforeYear y + n ∧
        1 ≤ n1 ∧ n1 ≤ daysInYear y1 ∧ 1 ≤ y1 := by
  intro fuel
  induction fuel with
  | zero =>
    intro y n y1 n1 hy hn hub heq
    simp only [yearFromDays, Prod.mk.injEq] at heq
    obtain ⟨rfl, rfl⟩ := heq
    simp only [Nat.add_zero] at hub
    exact ⟨rfl, hn, by omega, hy⟩
  | succ fuel ih =>
    intro y n y1 n1 hy hn hub heq
    simp only [yearFromDays] at heq
    split_ifs at heq with hlt
    · have hs : daysBeforeYear (y + 1) = daysBeforeYear y + daysInYear y :=
        daysBeforeYear_succ y hy
      have harr : y + 1 + fuel = y + (fuel + 1) := by omega
      have hub1 : daysBeforeYear (y + 1) + (n - daysInYear y)
          ≤ daysBeforeYear (y + 1 + fuel) + daysInYear (y + 1 + fuel) := by
        rw [harr]
        omega
      have := ih (y + 1) (n - daysInYear y) y1 n1 (by omega) (by omega) hub1 heq
      refine ⟨by omega, this.2⟩
    · simp only [Prod.mk.injEq] at heq
      obtain ⟨rfl, rfl⟩ := heq
      exact ⟨rfl, hn, by omega, hy⟩


/-! ## `fromTotalUs` correctness -/

theorem daysBeforeYear_one : daysBeforeYear 1 = 0 := by decide

set_option maxHeartbeats 1000000 in
theorem fromTotalUs_spec (u off : Int) (h0 : 0 ≤ u) (h1 : u < (MAXUS : Int)) :
    ∃ e : PyDatetime, fromTotalUs u off = some e ∧
      e.tz = some off ∧
      totalUs e = u.toNat ∧
      e.microsecond = u.toNat % 1000000 ∧
      e.year ≤ 9999 ∧ 1 ≤ e.month ∧ e.month ≤ 12 ∧ 1 ≤ e.day ∧ e.day ≤ 31 ∧
      e.hour < 24 ∧ e.minute < 60 ∧ e.second < 60 := by
  have hnM : u.toNat < MAXUS := by
    unfold MAXUS at h1 ⊢
    omega
  rcases hyd : yearFromDays 9999 1 (u.toNat / 1000000 / 86400 + 1) with ⟨y, rest⟩
  have hord : u.toNat / 1000000 / 86400 + 1 ≤ 3652059 := by
    unfold MAXUS at hnM
    omega
  have hys := yearFromDays_spec 9999 1 (u.toNat / 1000000 / 86400 + 1) y rest
    (le_refl 1) (by omega)
    (by
      rw [daysBeforeYear_one]
      have hd10 : daysBeforeYear (1 + 9999) = 3652059 := daysBeforeYear_10000
      have hp : 0 < daysInYear (1 + 9999) := daysInYear_pos _
      omega)
    hyd
  obtain ⟨hA, h1r, h2r, hy1⟩ := hys
  rw [daysBeforeYear_one, Nat.zero_add] at hA
  rcases hmd : monthFromDays y 11 1 rest with ⟨m, d⟩
  have hms := monthFromDays_spec y 11 1 rest m d (le_refl 1) (by norm_num) h1r
    (by
      rw [daysBeforeMonth_one, daysBeforeMonth_13]
      omega)
    hmd
  obtain ⟨hB, h1d, h2d, h1m, h2m⟩ := hms
  rw [daysBeforeMonth_one, Nat.zero_add] at hB
  have hd31 : d ≤ 31 := le_trans h2d (daysInMonth_le_31 y m)
  have hy9999 : y ≤ 9999 := by
    by_contra hc
    push_neg at hc
    have := daysBeforeYear_ge_10000 y (by omega)
    omega
  refine ⟨⟨y, m, d, u.toNat / 1000000 / 3600 % 24, u.toNat / 1000000 / 60 % 60,
    u.toNat / 1000000 % 60, u.toNat % 1000000, some off⟩, ?_, rfl, ?_, rfl,
    hy9999, h1m, h2m, h1d, hd31, ?_, ?_, ?_⟩
  · unfold fromTotalUs
    rw [if_pos ⟨h0, h1⟩]
    simp only [hyd, hmd]
  · unfold totalUs dateToOrdinal
    simp only
    have hord2 : daysBeforeYear y + daysBeforeMonth y m + d
        = u.toNat / 1000000 / 86400 + 1 := by
      omega
    omega
  · show u.toNat / 1000000 / 3600 % 24 < 24
    omega
  · show u.toNat / 1000000 / 60 % 60 < 60
    omega
  · show u.toNat / 1000000 % 60 < 60
    omega


/-! ## ISO-8601 format/parse round trip -/

theorem expectChar_cons (c : Char) (xs : List Char) : expectChar c (c :: xs) = some xs := by
  simp [expectChar]

theorem parseFrac_no_dot (c : Char) (cs : List Char) (hc : c ≠ '.') :
    parseFrac (c :: cs) = some (0, c :: cs) := by
  unfold parseFrac
  split <;> simp_all

theorem parseFrac_cons_dot (cs : List Char) :
    parseFrac ('.' :: cs) = readBase 10 decVal 6 0 cs := rfl

theorem parseFrac_dot (us : Nat) (rest : List Char) (hus : us < 1000000) :
    parseFrac ('.' :: (natBaseBE 10 decChar 6 us ++ rest)) = some (us, rest) := by
  have r := readBase_dec_natBaseBE 6 0 us rest (by norm_num; exact hus)
  rw [parseFrac_cons_dot, r]
  norm_num

theorem parseOffsetMin_spec (sign : Char) (oh a : Nat)
    (hm : a % 3600 / 60 < 100) (hs : a % 60 < 100) :
    parseOffsetMin sign oh (natBaseBE 10 decChar 2 (a % 3600 / 60) ++
        (if a % 60 = 0 then [] else ':' :: natBaseBE 10 decChar 2 (a % 60)))
      = some (some (if sign = '-' then
          -((oh * 3600 + a % 3600 / 60 * 60 + a % 60 : Nat) : Int)
          else ((oh * 3600 + a % 3600 / 60 * 60 + a % 60 : Nat) : Int))) := by
  have r2 := readBase_dec_natBaseBE 2 0 (a % 3600 / 60)
    (if a % 60 = 0 then [] else ':' :: natBaseBE 10 decChar 2 (a % 60))
    (by norm_num; exact hm)
  unfold parseOffsetMin
  rw [r2]
  simp only [Nat.zero_mul, Nat.zero_add]
  by_cases h60 : a % 60 = 0
  · rw [if_pos h60]
    simp [parseOffsetSeconds, h60]
  · rw [if_neg h60]
    have r3 := readBase_dec_natBaseBE 2 0 (a % 60) [] (by norm_num; exact hs)
    rw [List.append_nil] at r3
    simp [parseOffsetSeconds, r3]

theorem parseOffsetHM_spec (sign : Char) (a : Nat) (ha : a < 86400) :
    parseOffsetHM sign (natBaseBE 10 decChar 2 (a / 3600) ++ ':' ::
        (natBaseBE 10 decChar 2 (a % 3600 / 60) ++
          (if a % 60 = 0 then [] else ':' :: natBaseBE 10 decChar 2 (a % 60))))
      = some (some (if sign = '-' then -(a : Int) else (a : Int))) := by
  have r1 := readBase_dec_natBaseBE 2 0 (a / 3600) (':' ::
    (natBaseBE 10 decChar 2 (a % 3600 / 60) ++
      (if a % 60 = 0 then [] else ':' :: natBaseBE 10 decChar 2 (a % 60))))
    (by norm_num; omega)
  unfold parseOffsetHM
  rw [r1]
  simp only [Nat.zero_mul, Nat.zero_add]
  rw [expectChar_cons]
  simp only []
  rw [parseOffsetMin_spec sign (a / 3600) a (by omega) (by omega)]
  have hval : a / 3600 * 3600 + a % 3600 / 60 * 60 + a % 60 = a := by omega
  rw [hval]

theorem parseOffsetPart_offsetChars (off : Int) (hoff : off.natAbs < 86400) :
    parseOffsetPart (offsetChars (some off)) = some (some off) := by
  have hshape : offsetChars (some off) = (if off < 0 then '-' else '+') ::
      (natBaseBE 10 decChar 2 (off.natAbs / 3600) ++ ':' ::
        (natBaseBE 10 decChar 2 (off.natAbs % 3600 / 60) ++
          (if off.natAbs % 60 = 0 then []
            else ':' :: natBaseBE 10 decChar 2 (off.natAbs % 60)))) := by
    unfold offsetChars
    simp [List.cons_append, List.append_assoc]
  rw [hshape]
  by_cases hneg : off < 0
  · rw [if_pos hneg]
    rw [show ∀ zs, parseOffsetPart ('-' :: zs) = parseOffsetHM '-' zs from fun _ => rfl]
    rw [parseOffsetHM_spec '-' off.natAbs hoff]
    rw [if_pos rfl]
    have hv : -((off.natAbs : Nat) : Int) = off := by omega
    rw [hv]
  · rw [if_neg hneg]
    rw [show ∀ zs, parseOffsetPart ('+' :: zs) = parseOffsetHM '+' zs from fun _ => rfl]
    rw [parseOffsetHM_spec '+' off.natAbs hoff]
    rw [if_neg (by decide : ¬('+' = '-'))]
    have hv : ((off.natAbs : Nat) : Int) = off := by omega
    rw [hv]

theorem parseTail_spec (us : Nat) (off : Int)
    (hus : us < 1000000) (hoff : off.natAbs < 86400) :
    parseTail ((if us = 0 then [] else '.' :: natBaseBE 10 decChar 6 us)
        ++ offsetChars (some off))
      = some (us, some off) := by
  have hshape : offsetChars (some off) = (if off < 0 then '-' else '+') ::
      (natBaseBE 10 decChar 2 (off.natAbs / 3600) ++ ':' ::
        (natBaseBE 10 decChar 2 (off.natAbs % 3600 / 60) ++
          (if off.natAbs % 60 = 0 then []
            else ':' :: natBaseBE 10 decChar 2 (off.natAbs % 60)))) := by
    unfold offsetChars
    simp [List.cons_append, List.append_assoc]
  by_cases h0 : us = 0
  · rw [if_pos h0, List.nil_append]
    unfold parseTail
    have hf : parseFrac (offsetChars (some off)) = some (0, offsetChars (some off)) := by
      rw [hshape]
      by_cases hneg : off < 0
      · rw [if_pos hneg]
        exact parseFrac_no_dot '-' _ (by decide)
      · rw [if_neg hneg]
        exact parseFrac_no_dot '+' _ (by decide)
    rw [hf]
    simp only []
    rw [parseOffsetPart_offsetChars off hoff]
    rw [h0]
  · rw [if_neg h0, List.cons_append]
    unfold parseTail
    rw [parseFrac_dot us (offsetChars (some off)) hus]
    simp only []
    rw [parseOffsetPart_offsetChars off hoff]

theorem parseMinuteOn_spec (mi se us : Nat) (off : Int)
    (hmi : mi < 100) (hs : se < 100) (hus : us < 1000000) (hoff : off.natAbs < 86400) :
    parseMinuteOn (natBaseBE 10 decChar 2 mi ++ ':' :: (natBaseBE 10 decChar 2 se ++
        ((if us = 0 then [] else '.' :: natBaseBE 10 decChar 6 us)
          ++ offsetChars (some off))))
      = some (mi, se, us, some off) := by
  have r1 := readBase_dec_natBaseBE 2 0 mi (':' :: (natBaseBE 10 decChar 2 se ++
    ((if us = 0 then [] else '.' :: natBaseBE 10 decChar 6 us) ++ offsetChars (some off))))
    (by norm_num; exact hmi)
  have r2 := readBase_dec_natBaseBE 2 0 se
    ((if us = 0 then [] else '.' :: natBaseBE 10 decChar 6 us) ++ offsetChars (some off))
    (by norm_num; exact hs)
  unfold parseMinuteOn
  rw [r1]
  simp only [Nat.zero_mul, Nat.zero_add]
  rw [expectChar_cons]
  simp only []
  rw [r2]
  simp only [Nat.zero_mul, Nat.zero_add]
  rw [parseTail_spec us off hus hoff]

theorem parseClock_spec (h mi se us : Nat) (off : Int)
    (hh : h < 100) (hmi : mi < 100) (hs : se < 100) (hus : us < 1000000)
    (hoff : off.natAbs < 86400) :
    parseClock (natBaseBE 10 decChar 2 h ++ ':' :: (natBaseBE 10 decChar 2 mi ++ ':' ::
        (natBaseBE 10 decChar 2 se ++
          ((if us = 0 then [] else '.' :: natBaseBE 10 decChar 6 us)
            ++ offsetChars (some off)))))
      = some (h, mi, se, us, some off) := by
  have r1 := readBase_dec_natBaseBE 2 0 h (':' :: (natBaseBE 10 decChar 2 mi ++ ':' ::
    (natBaseBE 10 decChar 2 se ++
      ((if us = 0 then [] else '.' :: natBaseBE 10 decChar 6 us) ++ offsetChars (some off)))))
    (by norm_num; exact hh)
  unfold parseClock
  rw [r1]
  simp only [Nat.zero_mul, Nat.zero_add]
  rw [expectChar_cons]
  simp only []
  rw [parseMinuteOn_spec mi se us off hmi hs hus hoff]

theorem parseMonthDay_spec (mo dy : Nat) (rest : List Char)
    (hmo : mo < 100) (hd : dy < 100) :
    parseMonthDay (natBaseBE 10 decChar 2 mo ++ '-' :: (natBaseBE 10 decChar 2 dy ++ rest))
      = some (mo, dy, rest) := by
  have r1 := readBase_dec_natBaseBE 2 0 mo ('-' :: (natBaseBE 10 decChar 2 dy ++ rest))
    (by norm_num; exact hmo)
  have r2 := readBase_dec_natBaseBE 2 0 dy rest (by norm_num; exact hd)
  unfold parseMonthDay
  rw [r1]
  simp only [Nat.zero_mul, Nat.zero_add]
  rw [expectChar_cons]
  simp only []
  rw [r2]
  simp only [Nat.zero_mul, Nat.zero_add]

theorem isoparse_isoformat (e : PyDatetime) (off : Int)
    (htz : e.tz = some off) (hoff : off.natAbs < 86400)
    (hy : e.year < 10000) (hmo : e.month < 100) (hd : e.day < 100)
    (hh : e.hour < 100) (hmi : e.minute < 100) (hs : e.second < 100)
    (hus : e.microsecond < 1000000) :
    isoparse (isoformat e) = some e := by
  obtain ⟨y, mo, dy, h, mi, se, us, tz⟩ := e
  simp only at htz hy hmo hd hh hmi hs hus
  subst htz
  have r1 := readBase_dec_natBaseBE 4 0 y ('-' :: (natBaseBE 10 decChar 2 mo ++ '-' ::
    (natBaseBE 10 decChar 2 dy ++ 'T' :: (natBaseBE 10 decChar 2 h ++ ':' ::
      (natBaseBE 10 decChar 2 mi ++ ':' :: (natBaseBE 10 decChar 2 se ++
        ((if us = 0 then [] else '.' :: natBaseBE 10 decChar 6 us)
          ++ offsetChars (some off))))))))
    (by norm_num; exact hy)
  have hdata : (isoformat ⟨y, mo, dy, h, mi, se, us, some off⟩).data
      = natBaseBE 10 decChar 4 y ++ '-' :: (natBaseBE 10 decChar 2 mo ++ '-' ::
        (natBaseBE 10 decChar 2 dy ++ 'T' :: (natBaseBE 10 decChar 2 h ++ ':' ::
          (natBaseBE 10 decChar 2 mi ++ ':' :: (natBaseBE 10 decChar 2 se ++
            ((if us = 0 then [] else '.' :: natBaseBE 10 decChar 6 us)
              ++ offsetChars (some off))))))) := by
    show isoformatChars ⟨y, mo, dy, h, mi, se, us, some off⟩ = _
    unfold isoformatChars
    simp only [List.cons_append, List.append_assoc]
  unfold isoparse
  rw [hdata, r1]
  simp only [Nat.zero_mul, Nat.zero_add]
  rw [expectChar_cons]
  simp only []
  rw [parseMonthDay_spec mo dy _ hmo hd]
  simp only []
  rw [expectChar_cons]
  simp only []
  rw [parseClock_spec h mi se us off hh hmi hs hus hoff]

/-! ## Claim theorems (part 2): the UUID converter -/

theorem hexChar_isLowerHex : ∀ d < 16, isLowerHex (hexChar d) = true := by decide

theorem natBaseBE_hex_all_lower :
    ∀ w n, n < 16 ^ w → ∀ c ∈ natBaseBE 16 hexChar w n, isLowerHex c = true := by
  intro w
  induction w with
  | zero =>
    intro n hn c hc
    simp [natBaseBE] at hc
  | succ w ih =>
    intro n hn c hc
    simp only [natBaseBE, List.mem_cons] at hc
    rcases hc with rfl | hc
    · refine hexChar_isLowerHex _ ?_
      rw [Nat.div_lt_iff_lt_mul (Nat.pos_pow_of_pos w (by norm_num))]
      have hbp : (16 : Nat) ^ (w + 1) = 16 * 16 ^ w := by ring
      exact hbp ▸ hn
    · exact ih _ (Nat.mod_lt _ (Nat.pos_pow_of_pos w (by norm_num))) c hc

theorem filter_ne_dash_of_all_lower {l : List Char}
    (h : ∀ c ∈ l, isLowerHex c = true) :
    l.filter (fun c => c ≠ '-') = l := by
  rw [List.filter_eq_self]
  intro a ha
  simpa using ne_dash_of_lower (h a ha)

theorem uuid_take_drop_assemble (l : List Char) :
    l.take 8 ++ ((l.drop 8).take 4 ++ ((l.drop 12).take 4 ++
      ((l.drop 16).take 4 ++ l.drop 20))) = l := by
  have h12 : (l.drop 8).drop 4 = l.drop 12 := by
    rw [List.drop_drop]
  have h16 : (l.drop 12).drop 4 = l.drop 16 := by
    rw [List.drop_drop]
  have h20 : (l.drop 16).drop 4 = l.drop 20 := by
    rw [List.drop_drop]
  conv_rhs => rw [← List.take_append_drop 8 l, ← List.take_append_drop 4 (l.drop 8), h12,
    ← List.take_append_drop 4 (l.drop 12), h16, ← List.take_append_drop 4 (l.drop 16), h20]

theorem uuid_filter_str (n : Nat) (hall : ∀ c ∈ uuidHexChars n, isLowerHex c = true) :
    (uuidStrChars n).filter (fun c => c ≠ '-') = uuidHexChars n := by
  have t8 := filter_ne_dash_of_all_lower
    (fun c hc => hall c (List.mem_of_mem_take hc) : ∀ c ∈ (uuidHexChars n).take 8, _)
  have t4a := filter_ne_dash_of_all_lower
    (fun c hc => hall c (List.mem_of_mem_drop (List.mem_of_mem_take hc)) :
      ∀ c ∈ ((uuidHexChars n).drop 8).take 4, _)
  have t4b := filter_ne_dash_of_all_lower
    (fun c hc => hall c (List.mem_of_mem_drop (List.mem_of_mem_take hc)) :
      ∀ c ∈ ((uuidHexChars n).drop 12).take 4, _)
  have t4c := filter_ne_dash_of_all_lower
    (fun c hc => hall c (List.mem_of_mem_drop (List.mem_of_mem_take hc)) :
      ∀ c ∈ ((uuidHexChars n).drop 16).take 4, _)
  have t20 := filter_ne_dash_of_all_lower
    (fun c hc => hall c (List.mem_of_mem_drop hc) : ∀ c ∈ (uuidHexChars n).drop 20, _)
  simp only [decide_not] at t8 t4a t4b t4c t20
  show ((uuidHexChars n).take 8 ++ '-' :: (((uuidHexChars n).drop 8).take 4 ++ '-' ::
      (((uuidHexChars n).drop 12).take 4 ++ '-' :: (((uuidHexChars n).drop 16).take 4 ++ '-' ::
        (uuidHexChars n).drop 20)))).filter (fun c => c ≠ '-') = uuidHexChars n
  simp [List.filter_append, List.filter_cons, t8, t4a, t4b, t4c, t20,
    uuid_take_drop_assemble]

theorem uuid_roundtrip_value (n : Nat) (hn : n < 2 ^ 128) :
    CONVERTER_structure_uuid (CONVERTER_unstructure_uuid n) = some n := by
  have h16 : n < 16 ^ 32 := by
    have he : (16 : Nat) ^ 32 = 2 ^ 128 := by norm_num
    rw [he]
    exact hn
  have hall : ∀ c ∈ uuidHexChars n, isLowerHex c = true :=
    natBaseBE_hex_all_lower 32 n h16
  have hlen : (uuidHexChars n).length = 32 := natBaseBE_length 16 hexChar 32 n
  have hsome : ∀ c ∈ uuidHexChars n, (hexVal c).isSome = true :=
    fun c hc => hexVal_isSome_of_lower (hall c hc)
  show (let hex := (CONVERTER_unstructure_uuid n).data.filter (fun c => c ≠ '-')
    if hex.length = 32 ∧ ∀ c ∈ hex, (hexVal c).isSome = true then
      some (valBE 16 hexVal hex)
    else none) = some n
  have hdata : (CONVERTER_unstructure_uuid n).data = uuidStrChars n := rfl
  rw [hdata, uuid_filter_str n hall, if_pos ⟨hlen, hsome⟩]
  unfold uuidHexChars
  rw [valBE_natBaseBE 32 n h16]

theorem uuid_roundtrip_string (s : String) (h : IsCanonicalUuid s) :
    ∃ n, CONVERTER_structure_uuid s = some n ∧ CONVERTER_unstructure_uuid n = s := by
  obtain ⟨g1, g2, g3, g4, g5, h1, h2, h3, h4, h5, hall, hdata⟩ := h
  have hall' : ∀ c ∈ g1 ++ (g2 ++ (g3 ++ (g4 ++ g5))), isLowerHex c = true := by
    intro c hc
    apply hall c
    simp only [List.mem_append] at hc ⊢
    tauto
  have f1 := filter_ne_dash_of_all_lower
    (fun c hc => hall' c (by simp [hc]) : ∀ c ∈ g1, _)
  have f2 := filter_ne_dash_of_all_lower
    (fun c hc => hall' c (by simp [hc]) : ∀ c ∈ g2, _)
  have f3 := filter_ne_dash_of_all_lower
    (fun c hc => hall' c (by simp [hc]) : ∀ c ∈ g3, _)
  have f4 := filter_ne_dash_of_all_lower
    (fun c hc => hall' c (by simp [hc]) : ∀ c ∈ g4, _)
  have f5 := filter_ne_dash_of_all_lower
    (fun c hc => hall' c (by simp [hc]) : ∀ c ∈ g5, _)
  have hfil : s.data.filter (fun c => c ≠ '-') = g1 ++ (g2 ++ (g3 ++ (g4 ++ g5))) := by
    simp only [decide_not] at f1 f2 f3 f4 f5
    rw [hdata]
    simp [List.filter_append, List.filter_cons, f1, f2, f3, f4, f5]
  have hlen : (g1 ++ (g2 ++ (g3 ++ (g4 ++ g5)))).length = 32 := by
    simp [h1, h2, h3, h4, h5]
  have hsome : ∀ c ∈ g1 ++ (g2 ++ (g3 ++ (g4 ++ g5))), (hexVal c).isSome = true :=
    fun c hc => hexVal_isSome_of_lower (hall' c hc)
  refine ⟨valBE 16 hexVal (g1 ++ (g2 ++ (g3 ++ (g4 ++ g5)))), ?_, ?_⟩
  · show (let hex := s.data.filter (fun c => c ≠ '-')
      if hex.length = 32 ∧ ∀ c ∈ hex, (hexVal c).isSome = true then
        some (valBE 16 hexVal hex)
      else none) = _
    rw [hfil, if_pos ⟨hlen, hsome⟩]
  · have hhex : uuidHexChars (valBE 16 hexVal (g1 ++ (g2 ++ (g3 ++ (g4 ++ g5)))))
        = g1 ++ (g2 ++ (g3 ++ (g4 ++ g5))) := by
      have := natBaseBE_valBE (g1 ++ (g2 ++ (g3 ++ (g4 ++ g5)))) hall'
      rw [hlen] at this
      exact this
    have ht8 : (g1 ++ (g2 ++ (g3 ++ (g4 ++ g5)))).take 8 = g1 :=
      List.take_left' h1
    have hd8 : (g1 ++ (g2 ++ (g3 ++ (g4 ++ g5)))).drop 8 = g2 ++ (g3 ++ (g4 ++ g5)) :=
      List.drop_left' h1
    have e12 : ((g1 ++ (g2 ++ (g3 ++ (g4 ++ g5)))).drop 8).drop 4
        = (g1 ++ (g2 ++ (g3 ++ (g4 ++ g5)))).drop 12 := by
      rw [List.drop_drop]
    have hd12 : (g1 ++ (g2 ++ (g3 ++ (g4 ++ g5)))).drop 12 = g3 ++ (g4 ++ g5) := by
      rw [← e12, hd8, List.drop_left' h2]
    have e16 : ((g1 ++ (g2 ++ (g3 ++ (g4 ++ g5)))).drop 12).drop 4
        = (g1 ++ (g2 ++ (g3 ++ (g4 ++ g5)))).drop 16 := by
      rw [List.drop_drop]
    have hd16 : (g1 ++ (g2 ++ (g3 ++ (g4 ++ g5)))).drop 16 = g4 ++ g5 := by
      rw [← e16, hd12, List.drop_left' h3]
    have e20 : ((g1 ++ (g2 ++ (g3 ++ (g4 ++ g5)))).drop 16).drop 4
        = (g1 ++ (g2 ++ (g3 ++ (g4 ++ g5)))).drop 20 := by
      rw [List.drop_drop]
    have hd20 : (g1 ++ (g2 ++ (g3 ++ (g4 ++ g5)))).drop 20 = g5 := by
      rw [← e20, hd16, List.drop_left' h4]
    have hstr : uuidStrChars (valBE 16 hexVal (g1 ++ (g2 ++ (g3 ++ (g4 ++ g5))))) = s.data := by
      show (uuidHexChars _).take 8 ++ '-' :: (((uuidHexChars _).drop 8).take 4 ++ '-' ::
        (((uuidHexChars _).drop 12).take 4 ++ '-' :: (((uuidHexChars _).drop 16).take 4 ++ '-' ::
          (uuidHexChars _).drop 20))) = s.data
      rw [hhex, hdata, ht8, hd8, hd12, hd16, hd20, List.take_left' h2, List.take_left' h3,
        List.take_left' h4]
    show String.mk (uuidStrChars _) = s
    rw [hstr]

/-- C4: the UUID converter is a bijection between 128-bit identifiers and
canonical UUID strings: structuring the unstructured form of any UUID
value returns the value, and unstructuring the structured form of any
canonical UUID string returns the string. -/
theorem uuid_converter_bijective :
    (∀ n : Nat, n < 2 ^ 128 →
      CONVERTER_structure_uuid (CONVERTER_unstructure_uuid n) = some n) ∧
    (∀ s : String, IsCanonicalUuid s →
      ∃ n, CONVERTER_structure_uuid s = some n ∧ CONVERTER_unstructure_uuid n = s) :=
  ⟨uuid_roundtrip_value, uuid_roundtrip_string⟩

/-- Witness for C4 at the concrete UUID 1 and its canonical string. -/
theorem uuid_converter_bijective_witness :
    CONVERTER_structure_uuid (CONVERTER_unstructure_uuid 1) = some 1 ∧
    ∃ n, CONVERTER_structure_uuid "00000000-0000-0000-0000-000000000001" = some n ∧
      CONVERTER_unstructure_uuid n = "00000000-0000-0000-0000-000000000001" :=
  ⟨uuid_converter_bijective.1 1 (by norm_num),
   uuid_converter_bijective.2 "00000000-0000-0000-0000-000000000001"
     ⟨['0', '0', '0', '0', '0', '0', '0', '0'], ['0', '0', '0', '0'], ['0', '0', '0', '0'],
      ['0', '0', '0', '0'],
      ['0', '0', '0', '0', '0', '0', '0', '0', '0', '0', '0', '1'],
      rfl, rfl, rfl, rfl, rfl, by decide, rfl⟩⟩

/-! ## Claim theorems (part 3): the timestamp converter -/

theorem totalUs_replaceTz (t : PyDatetime) (tz' : Option Int) :
    totalUs (pyReplaceTz t tz') = totalUs t := rfl

theorem unstructure_datetime_eq (L : Int) (t : PyDatetime) :
    CONVERTER_unstructure_datetime L t
      = (fromTotalUs ((totalUs t : Int) + L * 1000000) L).map
          (fun e => isoformat (pyReplaceMicrosecond e 0)) := by
  unfold CONVERTER_unstructure_datetime pyAstimezone
  rw [totalUs_replaceTz]
  rw [show (pyReplaceTz t (some 0)).tz = some 0 from rfl]
  simp

theorem decChar_ne_dot (d : Nat) : decChar d ≠ '.' := by
  unfold decChar
  split <;> decide

theorem natBaseBE_dec_no_dot : ∀ w n, '.' ∉ natBaseBE 10 decChar w n := by
  intro w
  induction w with
  | zero => intro n; simp [natBaseBE]
  | succ w ih =>
    intro n
    simp only [natBaseBE, List.mem_cons, not_or]
    exact ⟨fun h => decChar_ne_dot _ h.symm, ih _⟩

theorem offsetChars_no_dot (tz : Option Int) : '.' ∉ offsetChars tz := by
  cases tz with
  | none => simp [offsetChars]
  | some off =>
    have k1 : '.' ∉ natBaseBE 10 decChar 2 (off.natAbs / 3600) := natBaseBE_dec_no_dot 2 _
    have k2 : '.' ∉ natBaseBE 10 decChar 2 (off.natAbs % 3600 / 60) :=
      natBaseBE_dec_no_dot 2 _
    have k3 : '.' ∉ natBaseBE 10 decChar 2 (off.natAbs % 60) := natBaseBE_dec_no_dot 2 _
    show '.' ∉ (if off < 0 then '-' else '+') ::
      (natBaseBE 10 decChar 2 (off.natAbs / 3600) ++ ':' ::
        (natBaseBE 10 decChar 2 (off.natAbs % 3600 / 60) ++
          (if off.natAbs % 60 = 0 then []
            else ':' :: natBaseBE 10 decChar 2 (off.natAbs % 60))))
    split_ifs <;> simp_all [List.mem_append, List.mem_cons]

theorem isoformatChars_no_dot (e : PyDatetime) (hm : e.microsecond = 0) :
    '.' ∉ isoformatChars e := by
  have k1 : '.' ∉ natBaseBE 10 decChar 4 e.year := natBaseBE_dec_no_dot 4 _
  have k2 : '.' ∉ natBaseBE 10 decChar 2 e.month := natBaseBE_dec_no_dot 2 _
  have k3 : '.' ∉ natBaseBE 10 decChar 2 e.day := natBaseBE_dec_no_dot 2 _
  have k4 : '.' ∉ natBaseBE 10 decChar 2 e.hour := natBaseBE_dec_no_dot 2 _
  have k5 : '.' ∉ natBaseBE 10 decChar 2 e.minute := natBaseBE_dec_no_dot 2 _
  have k6 : '.' ∉ natBaseBE 10 decChar 2 e.second := natBaseBE_dec_no_dot 2 _
  have k7 : '.' ∉ offsetChars e.tz := offsetChars_no_dot e.tz
  unfold isoformatChars
  rw [if_pos hm]
  simp_all [List.mem_append, List.mem_cons]

/-- C5: the datetime unstructure hook truncates to whole seconds: for any
datetime (any microsecond component) and local offset, the emitted
ISO-8601 string contains no fractional-second component (no `'.'`
occurs in it). -/
theorem unstructure_datetime_no_fraction (t : PyDatetime) (L : Int)
    (h0 : 0 ≤ (totalUs t : Int) + L * 1000000)
    (h1 : (totalUs t : Int) + L * 1000000 < (MAXUS : Int)) :
    ∃ s, CONVERTER_unstructure_datetime L t = some s ∧ '.' ∉ s.data := by
  obtain ⟨e, he, -⟩ := fromTotalUs_spec ((totalUs t : Int) + L * 1000000) L h0 h1
  refine ⟨isoformat (pyReplaceMicrosecond e 0), ?_, ?_⟩
  · rw [unstructure_datetime_eq, he]
    rfl
  · show '.' ∉ isoformatChars (pyReplaceMicrosecond e 0)
    exact isoformatChars_no_dot _ rfl

/-- Witness for C5 at a concrete datetime with nonzero microseconds. -/
theorem unstructure_datetime_no_fraction_witness :
    ∃ s, CONVERTER_unstructure_datetime 0 ⟨2022, 3, 4, 5, 6, 7, 123456, some 0⟩ = some s ∧
      '.' ∉ s.data :=
  unstructure_datetime_no_fraction ⟨2022, 3, 4, 5, 6, 7, 123456, some 0⟩ 0
    (by decide) (by decide)

/-- C1 counterexample: the unstructure hook begins with
`obj.replace(tzinfo=datetime.timezone.utc)`, which reinterprets the wall
clock of a timezone-aware datetime as UTC instead of converting it.  For
the aware datetime 0001-01-02T00:00:00 at UTC offset +3600 s, the round
trip yields 0001-01-02T00:00:00+00:00, a different instant (even though
the input already has whole-second precision). -/
theorem timestamp_roundtrip_counterexample :
    CONVERTER_unstructure_datetime 0 ⟨1, 1, 2, 0, 0, 0, 0, some 3600⟩
        = some "0001-01-02T00:00:00+00:00" ∧
    CONVERTER_structure_datetime "0001-01-02T00:00:00+00:00"
        = some ⟨1, 1, 2, 0, 0, 0, 0, some 0⟩ ∧
    instantUs ⟨1, 1, 2, 0, 0, 0, 0, some 0⟩ ≠ instantUs ⟨1, 1, 2, 0, 0, 0, 0, some 3600⟩ ∧
    instantUs ⟨1, 1, 2, 0, 0, 0, 0, some 3600⟩ % 1000000 = 0 := by
  refine ⟨?_, ?_, ?_, ?_⟩ <;> decide

/-- C1 (amended): for every datetime whose UTC offset is zero (and any
local offset `L` within a day, with the conversion in range), structuring
the string produced by the unstructure hook yields a datetime denoting
the same instant with sub-second precision discarded.  For nonzero
offsets the instant is not preserved (see the counterexample). -/
theorem timestamp_roundtrip_utc (t : PyDatetime) (L : Int)
    (htz : t.tz = some 0) (hL : L.natAbs < 86400)
    (h0 : 0 ≤ (totalUs t : Int) + L * 1000000)
    (h1 : (totalUs t : Int) + L * 1000000 < (MAXUS : Int)) :
    ∃ s e, CONVERTER_unstructure_datetime L t = some s ∧
      CONVERTER_structure_datetime s = some e ∧ e.tz = some L ∧
      instantUs e = instantUs t - instantUs t % 1000000 := by
  obtain ⟨e1, he, htz1, htot, hmic, hy, h1m, h2m, h1d, h2d, hh, hmi2, hs2⟩ :=
    fromTotalUs_spec ((totalUs t : Int) + L * 1000000) L h0 h1
  refine ⟨isoformat (pyReplaceMicrosecond e1 0), pyReplaceMicrosecond e1 0, ?_, ?_, ?_, ?_⟩
  · rw [unstructure_datetime_eq, he]
    rfl
  · show isoparse (isoformat (pyReplaceMicrosecond e1 0)) = some (pyReplaceMicrosecond e1 0)
    refine isoparse_isoformat _ L htz1 hL ?_ ?_ ?_ ?_ ?_ ?_ ?_
    · show e1.year < 10000
      omega
    · show e1.month < 100
      omega
    · show e1.day < 100
      omega
    · show e1.hour < 100
      omega
    · show e1.minute < 100
      omega
    · show e1.second < 100
      omega
    · show (0 : Nat) < 1000000
      norm_num
  · exact htz1
  · have htot2 : totalUs (pyReplaceMicrosecond e1 0) = totalUs e1 - e1.microsecond := by
      unfold totalUs pyReplaceMicrosecond
      simp only
      omega
    unfold instantUs
    have hg1 : (pyReplaceMicrosecond e1 0).tz.getD 0 = L := by
      show e1.tz.getD 0 = L
      rw [htz1]
      rfl
    have hg2 : t.tz.getD 0 = 0 := by
      rw [htz]
      rfl
    rw [hg1, hg2, htot2]
    omega

/-- Witness for C1 (amended) at a concrete UTC datetime and local offset
+01:00. -/
theorem timestamp_roundtrip_utc_witness :
    ∃ s e, CONVERTER_unstructure_datetime 3600 ⟨2020, 5, 17, 12, 30, 45, 123456, some 0⟩
        = some s ∧
      CONVERTER_structure_datetime s = some e ∧ e.tz = some 3600 ∧
      instantUs e = instantUs ⟨2020, 5, 17, 12, 30, 45, 123456, some 0⟩
        - instantUs ⟨2020, 5, 17, 12, 30, 45, 123456, some 0⟩ % 1000000 :=
  timestamp_roundtrip_utc ⟨2020, 5, 17, 12, 30, 45, 123456, some 0⟩ 3600
    rfl (by decide) (by decide) (by decide)

end VarfishCli
